import Mathlib

/-
Verification of the CinaKinetic workflow-graph assembly and generation
clients against their specification.

Shallow embedding of:
  src/src/ai_pipeline/comfyui_client.py   (ComfyUIClient)
  src/src/ai_pipeline/runpod_client.py    (RunPodClient)
  src/src/workflows/workflow_templates.py (ActionWorkflowTemplate)
  src/src/utils/prompt_builder.py         (ActionPromptBuilder)

Conventions of the embedding:
  - ComfyUI workflow dictionaries map stringified-integer node ids to
    nodes; node ids are embedded as the corresponding naturals
    (the source key "13" is the natural 13).  A workflow is an
    association list in insertion order, matching Python dict order.
  - Numeric literals (ints and floats such as cfg 7.5, strength 0.8)
    are embedded as rationals; no arithmetic is performed on them.
  - Remote HTTP behaviour is abstracted into oracles: the response to
    the POST /prompt submission and the response to the k-th
    GET /history poll.  A raised requests exception is an oracle
    constructor carrying the str(e) message.
  - A Python dict return value is embedded as a record; a key that is
    absent from the dict on some code path is an Option field that is
    none on that path.
-/

namespace Cina

/-! ## Workflow graph data model -/

/-- A value appearing in a node's `inputs` mapping: a string literal, a
numeric literal, or a link `[producer_node_id, output_slot]`. -/
inductive IVal where
  | str (s : String)
  | num (q : ℚ)
  | link (nid : Nat) (slot : Nat)
deriving DecidableEq, Repr

/-- One ComfyUI workflow node: its `class_type`, its `inputs` dict in
insertion order, and the optional `_meta.title`. -/
structure Node where
  class_type : String
  inputs : List (String × IVal)
  title : Option String := none
deriving DecidableEq, Repr

/-- A workflow graph: association list from node id to node, in Python
dict insertion order. -/
abbrev Workflow := List (Nat × Node)

/-- Dictionary lookup `workflow[id]`. -/
def wfFind : Workflow → Nat → Option Node
  | [], _ => none
  | (k, n) :: w, id => if k = id then some n else wfFind w id

/-- Dictionary assignment `workflow[id] = node`: replaces the entry if
the key is present, otherwise appends (Python dict semantics). -/
def wfInsert : Workflow → Nat → Node → Workflow
  | [], id, nd => [(id, nd)]
  | (k, n) :: w, id, nd =>
      if k = id then (k, nd) :: w else (k, n) :: wfInsert w id nd

/-- Replace the value of key `key` in an inputs dict (the source only
ever assigns to keys that are already present). -/
def setKey : List (String × IVal) → String → IVal → List (String × IVal)
  | [], _, _ => []
  | (k, v) :: l, key, nv =>
      if k = key then (k, nv) :: l else (k, v) :: setKey l key nv

/-- Dictionary assignment `workflow[id]["inputs"][key] = v` (keys are
unique in every workflow the source builds, so rewriting each matching
entry is dict-update semantics). -/
def setNodeInput : Workflow → Nat → String → IVal → Workflow
  | [], _, _, _ => []
  | (k, n) :: w, id, key, v =>
      if k = id then (k, { n with inputs := setKey n.inputs key v }) :: setNodeInput w id key v
      else (k, n) :: setNodeInput w id key v

/-! ## String helpers mirroring Python primitives -/

/-- Python `str.lower()` (the repository's strings are ASCII). -/
def strLower (s : String) : String := ⟨s.data.map Char.toLower⟩

/-- Python `needle in hay` substring test on char lists. -/
def listContainsSub : List Char → List Char → Bool
  | [], needle => needle.isEmpty
  | hay@(_ :: t), needle => List.isPrefixOf needle hay || listContainsSub t needle

/-- Python `needle in hay` substring test on strings. -/
def strContains (hay needle : String) : Bool := listContainsSub hay.data needle.data

/-- Python `", ".join(components)`. -/
def joinComps : List String → String
  | [] => ""
  | [x] => x
  | x :: y :: l => x ++ ", " ++ joinComps (y :: l)

/-! ## Scene model (the `src/models/scene_models.py` module is not
present under `src/`; these carrier types are reconstructed) -/

/-- Modelled from the spec: the missing `scene_models.SceneType` string
enum, whose members are listed in spec section 3 ("car_chase,
fight_scene, explosion, shootout, aerial_combat, space_battle,
boxing_match, martial_arts") and match the keys of the prompt-builder
tables. -/
inductive SceneType where
  | car_chase | fight_scene | explosion | shootout
  | aerial_combat | space_battle | boxing_match | martial_arts
deriving DecidableEq, Repr

/-- The string value of a `SceneType` member (it is a `str` enum). -/
def SceneType.str : SceneType → String
  | .car_chase => "car_chase"
  | .fight_scene => "fight_scene"
  | .explosion => "explosion"
  | .shootout => "shootout"
  | .aerial_combat => "aerial_combat"
  | .space_battle => "space_battle"
  | .boxing_match => "boxing_match"
  | .martial_arts => "martial_arts"

/-- Modelled from the spec: the missing `scene_models.ViolenceLevel`
enum ("pg13, r_rated, cinematic", spec section 3). -/
inductive ViolenceLevel where
  | pg13 | r_rated | cinematic
deriving DecidableEq, Repr

/-- The string value of a `ViolenceLevel` member. -/
def ViolenceLevel.str : ViolenceLevel → String
  | .pg13 => "pg13"
  | .r_rated => "r_rated"
  | .cinematic => "cinematic"

/-- Modelled from the spec: the missing `scene_models.CameraAngle`
enum; its members are the keys of the prompt builder's
`camera_modifiers` table. -/
inductive CameraAngle where
  | wide_shot | medium_shot | close_up | low_angle
  | high_angle | dutch_angle | pov
deriving DecidableEq, Repr

/-- Modelled from the spec: the missing `scene_models.SceneParameters`
record; its fields are those accessed by the present code
(`prompt_builder.build_action_prompt`) and listed in spec sections 3
and 4.1. -/
structure SceneParameters where
  scene_type : SceneType
  violence_level : ViolenceLevel
  camera_angle : CameraAngle
  setting : String := ""
  lighting : String := ""
  time_of_day : String := "day"
  weather : String := ""
  motion_blur : Bool := false
  characters : List String := []
  props : List String := []
deriving DecidableEq, Repr

/-- Modelled from the spec: the ControlNet attachment of the missing
`scene_models` module (type + strength + enabled flag; spec section 3),
as accessed by `_add_controlnet_nodes`. -/
structure ControlNetConfig where
  enabled : Bool := true
  cn_type : String
  strength : ℚ := 0.8
deriving DecidableEq, Repr

/-- Modelled from the spec: the missing `scene_models.GenerationConfig`
record, with the fields the present clients access (spec section 3:
width, height, steps, guidance scale, optional seed, negative prompt,
model, LoRA list, optional ControlNet). -/
structure GenerationConfig where
  width : Nat := 1024
  height : Nat := 1024
  steps : Nat := 28
  cfg_scale : ℚ := 7.5
  seed : Option Int := none
  negative_prompt : String := ""
  model : String := ""
  lora_models : List String := []
  controlnet : Option ControlNetConfig := none
deriving DecidableEq, Repr

/-! ## ActionPromptBuilder (src/src/utils/prompt_builder.py) -/

/-- `ActionPromptBuilder.scene_keywords` table. -/
def scene_keywords : SceneType → List String
  | .car_chase =>
      ["high-speed car chase", "vehicle pursuit", "racing through streets",
       "police chase", "dramatic driving", "tire screeching", "speed blur"]
  | .fight_scene =>
      ["intense combat", "martial arts fight", "hand-to-hand combat",
       "fighting poses", "action choreography", "dynamic movement"]
  | .explosion =>
      ["massive explosion", "fireball", "debris flying", "blast wave",
       "smoke and fire", "destruction", "impact crater"]
  | .shootout =>
      ["gunfight", "muzzle flashes", "cover shooting", "tactical combat",
       "bullets flying", "action movie shootout"]
  | .aerial_combat =>
      ["dogfight", "aerial battle", "fighter jets", "missiles firing",
       "aerial maneuvers", "sky combat", "aircraft battle"]
  | .space_battle =>
      ["space warfare", "starships fighting", "laser beams", "spacecraft battle",
       "cosmic conflict", "space combat", "interstellar war"]
  | .boxing_match =>
      ["boxing match", "boxing ring", "fighting stance", "punch impact",
       "athletic combat", "sport fighting", "boxing gloves"]
  | .martial_arts =>
      ["martial arts", "kung fu fighting", "karate combat", "taekwondo",
       "combat arts", "fighting techniques", "martial combat"]

/-- `ActionPromptBuilder.violence_modifiers` table. -/
def violence_modifiers : ViolenceLevel → List String
  | .pg13 =>
      ["mild action", "bloodless", "family-friendly action",
       "light impact", "non-graphic"]
  | .r_rated =>
      ["intense action", "realistic impact", "dramatic violence",
       "action movie style", "cinematic intensity"]
  | .cinematic =>
      ["epic action", "blockbuster style", "cinematic drama",
       "professional cinematography", "movie quality"]

/-- `ActionPromptBuilder.camera_modifiers` table. -/
def camera_modifiers : CameraAngle → List String
  | .wide_shot =>
      ["wide angle shot", "establishing shot", "full scene view",
       "panoramic view", "environmental context"]
  | .medium_shot =>
      ["medium shot", "waist up", "mid-range view",
       "balanced composition", "character focus"]
  | .close_up =>
      ["close-up shot", "facial detail", "intimate view",
       "emotional intensity", "detailed focus"]
  | .low_angle =>
      ["low angle shot", "looking up", "heroic angle",
       "dramatic perspective", "power shot"]
  | .high_angle =>
      ["high angle shot", "bird\x27s eye view", "looking down",
       "aerial perspective", "overview shot"]
  | .dutch_angle =>
      ["dutch angle", "tilted camera", "dynamic angle",
       "tension angle", "unbalanced composition"]
  | .pov =>
      ["point of view shot", "first person view", "character perspective",
       "immersive angle", "subjective camera"]

/-- `ActionPromptBuilder.lighting_styles` dict (string keyed). -/
def lighting_styles : List (String × List String) :=
  [("dramatic", ["dramatic lighting", "chiaroscuro", "high contrast", "moody lighting"]),
   ("action", ["dynamic lighting", "fast-paced lighting", "energetic illumination"]),
   ("cinematic", ["cinematic lighting", "movie-style lighting", "professional lighting"]),
   ("night", ["night lighting", "low light", "shadows", "artificial lighting"]),
   ("day", ["daylight", "natural lighting", "bright illumination"]),
   ("sunset", ["golden hour", "warm lighting", "sunset glow"]),
   ("neon", ["neon lighting", "colorful lights", "urban glow", "cyberpunk lighting"])]

/-- `ActionPromptBuilder.quality_enhancers` list. -/
def quality_enhancers : List String :=
  ["8k resolution", "ultra detailed", "masterpiece", "best quality",
   "cinematic composition", "professional photography", "award winning",
   "hyper realistic", "photorealistic", "sharp focus", "high definition"]

/-- `ActionPromptBuilder.action_enhancers` list. -/
def action_enhancers : List String :=
  ["dynamic pose", "action shot", "motion blur", "speed lines",
   "impact frame", "explosive moment", "kinetic energy", "dramatic timing",
   "freeze frame", "action sequence", "stunt choreography"]

/-- The `components` list accumulated by
`ActionPromptBuilder.build_action_prompt`, in source order.  The
scene-type, violence-level and camera-angle dict-membership tests of
the source are always true because the corresponding tables are total
over the enums. -/
def promptComponents (base_prompt : String) (p : SceneParameters) : List String :=
  [base_prompt]
  ++ (scene_keywords p.scene_type).take 3
  ++ (violence_modifiers p.violence_level).take 2
  ++ (camera_modifiers p.camera_angle).take 2
  ++ (if p.setting = "" then [] else ["set in " ++ p.setting])
  ++ (match lighting_styles.lookup p.lighting with
      | some ws => ws.take 2
      | none => [])
  ++ (if p.time_of_day = "day" then [] else [p.time_of_day ++ " time"])
  ++ (if p.weather = "" then [] else [p.weather ++ " weather"])
  ++ (if p.motion_blur then ["motion blur", "speed effect"] else [])
  ++ (if p.characters = [] then []
      else ["featuring " ++ joinComps (p.characters.take 2)])
  ++ (if p.props = [] then []
      else ["with " ++ joinComps (p.props.take 3)])
  ++ quality_enhancers.take 4
  ++ action_enhancers.take 3

/-- `ActionPromptBuilder.build_action_prompt`: the ", "-join of the
accumulated components. -/
def build_action_prompt (base_prompt : String) (p : SceneParameters) : String :=
  joinComps (promptComponents base_prompt p)

/-! ## ComfyUIClient graph construction (src/src/ai_pipeline/comfyui_client.py) -/

/-- `ComfyUIClient._build_negative_prompt`. -/
def comfyui_build_negative_prompt (p : SceneParameters) (config : GenerationConfig) : String :=
  let scene_specific := match p.scene_type with
    | .car_chase => "static, parked cars, slow motion"
    | .fight_scene => "peaceful, sitting, calm"
    | .explosion => "intact buildings, no fire, no smoke"
    | _ => ""
  if scene_specific = "" then config.negative_prompt
  else config.negative_prompt ++ ", " ++ scene_specific

/-- `ComfyUIClient._get_model_name` (the `model` argument is unused in
the source as well). -/
def comfyui_get_model_name (_model : String) (scene_type : SceneType) : String :=
  match scene_type with
  | .car_chase => "realisticVisionV60_v60B1.safetensors"
  | .fight_scene => "epicrealismXL_v10.safetensors"
  | .explosion => "juggernautXL_v8Rundiffusion.safetensors"
  | .aerial_combat => "dreamshaper_8.safetensors"
  | .space_battle => "scientificDiffusion_v10.safetensors"
  | _ => "realisticVisionV60_v60B1.safetensors"

/-- The seed literal `config.seed or -1`: Python `or` falls through to
-1 both for `None` and for the falsy seed 0. -/
def comfyuiSeedVal : Option Int → Int
  | none => -1
  | some s => if s = 0 then -1 else s

/-- The seven base nodes built by `ComfyUIClient._create_workflow`. -/
def comfyuiBaseWorkflow (prompt : String) (p : SceneParameters)
    (config : GenerationConfig) : Workflow :=
  [(1, { class_type := "CLIPTextEncode",
         inputs := [("text", .str prompt), ("clip", .link 4 1)],
         title := some "CLIP Text Encode (Prompt)" }),
   (2, { class_type := "CLIPTextEncode",
         inputs := [("text", .str (comfyui_build_negative_prompt p config)),
                    ("clip", .link 4 1)],
         title := some "CLIP Text Encode (Negative)" }),
   (3, { class_type := "KSampler",
         inputs := [("seed", .num (comfyuiSeedVal config.seed : ℚ)),
                    ("steps", .num (config.steps : ℚ)),
                    ("cfg", .num config.cfg_scale),
                    ("sampler_name", .str "euler"),
                    ("scheduler", .str "normal"),
                    ("denoise", .num 1),
                    ("model", .link 4 0),
                    ("positive", .link 1 0),
                    ("negative", .link 2 0),
                    ("latent_image", .link 5 0)],
         title := some "KSampler" }),
   (4, { class_type := "CheckpointLoaderSimple",
         inputs := [("ckpt_name", .str (comfyui_get_model_name config.model p.scene_type))],
         title := some "Load Checkpoint" }),
   (5, { class_type := "EmptyLatentImage",
         inputs := [("width", .num (config.width : ℚ)),
                    ("height", .num (config.height : ℚ)),
                    ("batch_size", .num 1)],
         title := some "Empty Latent Image" }),
   (8, { class_type := "VAEDecode",
         inputs := [("samples", .link 3 0), ("vae", .link 4 2)],
         title := some "VAE Decode" }),
   (9, { class_type := "SaveImage",
         inputs := [("filename_prefix", .str ("action_scene_" ++ p.scene_type.str)),
                    ("images", .link 8 0)],
         title := some "Save Image" })]

/-- `ComfyUIClient._add_controlnet_nodes`: the preprocessor node 11 is
added only for type "openpose", and no image-load node 12 is ever
added; node 13 is always added. -/
def comfyui_add_controlnet_nodes (w : Workflow) (cn : ControlNetConfig) : Workflow :=
  let w := wfInsert w 10
    { class_type := "ControlNetLoader",
      inputs := [("control_net_name", .str ("control_" ++ cn.cn_type ++ "_sd15.pth"))],
      title := some "Load ControlNet" }
  let w := if cn.cn_type = "openpose" then
      wfInsert w 11
        { class_type := "OpenposePreprocessor",
          inputs := [("image", .link 12 0)],
          title := some "OpenPose Preprocessor" }
    else w
  let w := wfInsert w 13
    { class_type := "ControlNetApply",
      inputs := [("conditioning", .link 1 0), ("control_net", .link 10 0),
                 ("image", .link 11 0), ("strength", .num cn.strength)],
      title := some "Apply ControlNet" }
  setNodeInput w 3 "positive" (.link 13 0)

/-- The `LoraLoader` node inserted for one LoRA name with the model and
clip inputs it is chained from. -/
def loraNode (lora_name : String) (m c : IVal) : Node :=
  { class_type := "LoraLoader",
    inputs := [("lora_name", .str lora_name), ("strength_model", .num 0.8),
               ("strength_clip", .num 0.8), ("model", m), ("clip", c)],
    title := some ("Load LoRA " ++ lora_name) }

/-- The insertion loop of `_add_lora_nodes`: node ids count up from
`nid`, each loader chains from the previous model/clip outputs; also
returns the final `last_model_output` and `last_clip_output`. -/
def addLoraLoop : Workflow → List String → Nat → IVal → IVal → Workflow × IVal × IVal
  | w, [], _, m, c => (w, m, c)
  | w, l :: ls, nid, m, c =>
      addLoraLoop (wfInsert w nid (loraNode l m c)) ls (nid + 1) (.link nid 0) (.link nid 1)

/-- `ComfyUIClient._add_lora_nodes`: inserts the loader chain starting
at node id 20 from checkpoint outputs `["4",0]`/`["4",1]`, then rewires
both text encoders' `clip` and the sampler's `model` to the final chain
outputs. -/
def comfyui_add_lora_nodes (w : Workflow) (lora_models : List String) : Workflow :=
  let r := addLoraLoop w lora_models 20 (.link 4 0) (.link 4 1)
  let w := setNodeInput r.1 1 "clip" r.2.2
  let w := setNodeInput w 2 "clip" r.2.2
  setNodeInput w 3 "model" r.2.1

/-- `ComfyUIClient._create_workflow`: the base graph, plus ControlNet
nodes when an enabled ControlNet config is present, plus LoRA nodes
when the LoRA list is non-empty. -/
def comfyui_create_workflow (prompt : String) (p : SceneParameters)
    (config : GenerationConfig) : Workflow :=
  let w := comfyuiBaseWorkflow prompt p config
  let w := match config.controlnet with
    | some cn => if cn.enabled then comfyui_add_controlnet_nodes w cn else w
    | none => w
  if config.lora_models = [] then w else comfyui_add_lora_nodes w config.lora_models

/-! ## RunPodClient graph construction (src/src/ai_pipeline/runpod_client.py) -/

/-- The settings record returned by `RunPodClient._get_wan_optimizations`. -/
structure WanSettings where
  sampler : String
  scheduler : String
  steps : Nat
  cfg_scale : ℚ
  clip_skip : Nat
deriving DecidableEq, Repr

/-- `RunPodClient._get_wan_optimizations`: WAN-family models (name
containing "wan" case-insensitively) get a distinct preset. -/
def get_wan_optimizations (model_name : String) : WanSettings :=
  if strContains (strLower model_name) "wan" then
    { sampler := "dpmpp_2m_karras", scheduler := "karras", steps := 25,
      cfg_scale := 6.5, clip_skip := 2 }
  else
    { sampler := "euler_a", scheduler := "normal", steps := 28,
      cfg_scale := 7.5, clip_skip := 1 }

/-- `RunPodClient._build_negative_prompt`. -/
def runpod_build_negative_prompt (p : SceneParameters) : String :=
  let base := "low quality, blurry, distorted, amateur, worst quality, bad anatomy"
  let scene_specific := match p.scene_type with
    | .car_chase => "static cars, parked vehicles, slow motion"
    | .fight_scene => "peaceful, sitting, calm poses, static"
    | .explosion => "intact buildings, no effects, clean environment"
    | _ => ""
  if scene_specific = "" then base else base ++ ", " ++ scene_specific

/-- The seed literal `config.seed if config.seed is not None else 42`. -/
def runpodSeedVal : Option Int → Int
  | none => 42
  | some s => s

/-- `RunPodClient._add_controlnet_nodes`: loader node 11, image-load
node 12, a preprocessor node 13 only for types "openpose" and "canny",
and apply node 14; the sampler's `positive` is rewired to node 14. -/
def runpod_add_controlnet_nodes (w : Workflow) (cn : ControlNetConfig) : Workflow :=
  let w := wfInsert w 11
    { class_type := "ControlNetLoader",
      inputs := [("control_net_name", .str ("control_" ++ cn.cn_type ++ "_sd15.pth"))],
      title := some "Load ControlNet" }
  let w := wfInsert w 12
    { class_type := "LoadImage",
      inputs := [("image", .str "CONTROLNET_IMAGE_PLACEHOLDER")],
      title := some "Load Control Image" }
  let w := if cn.cn_type = "openpose" then
      wfInsert w 13
        { class_type := "OpenposePreprocessor",
          inputs := [("image", .link 12 0)],
          title := some "OpenPose Preprocessor" }
    else if cn.cn_type = "canny" then
      wfInsert w 13
        { class_type := "CannyEdgePreprocessor",
          inputs := [("image", .link 12 0), ("low_threshold", .num 100),
                     ("high_threshold", .num 200)],
          title := some "Canny Preprocessor" }
    else w
  let w := wfInsert w 14
    { class_type := "ControlNetApply",
      inputs := [("conditioning", .link 1 0), ("control_net", .link 11 0),
                 ("image", .link 13 0), ("strength", .num cn.strength)],
      title := some "Apply ControlNet" }
  setNodeInput w 3 "positive" (.link 14 0)

/-- `RunPodClient._create_runpod_workflow`.  `now` is the value of
`int(time.time())` read while building node 9's `filename_prefix`. -/
def runpod_create_workflow (prompt : String) (p : SceneParameters)
    (config : GenerationConfig) (model_name : String) (now : Nat) : Workflow :=
  let ws := get_wan_optimizations model_name
  let w : Workflow :=
    [(1, { class_type := "CLIPTextEncode",
           inputs := [("text", .str prompt), ("clip", .link 4 1)],
           title := some "CLIP Text Encode (Prompt)" }),
     (2, { class_type := "CLIPTextEncode",
           inputs := [("text", .str (runpod_build_negative_prompt p)),
                      ("clip", .link 4 1)],
           title := some "CLIP Text Encode (Negative)" }),
     (3, { class_type := "KSampler",
           inputs := [("seed", .num (runpodSeedVal config.seed : ℚ)),
                      ("steps", .num (ws.steps : ℚ)),
                      ("cfg", .num ws.cfg_scale),
                      ("sampler_name", .str ws.sampler),
                      ("scheduler", .str ws.scheduler),
                      ("denoise", .num 1),
                      ("model", .link 4 0),
                      ("positive", .link 1 0),
                      ("negative", .link 2 0),
                      ("latent_image", .link 5 0)],
           title := some "KSampler" }),
     (4, { class_type := "CheckpointLoaderSimple",
           inputs := [("ckpt_name", .str model_name)],
           title := some "Load Checkpoint" }),
     (5, { class_type := "EmptyLatentImage",
           inputs := [("width", .num (config.width : ℚ)),
                      ("height", .num (config.height : ℚ)),
                      ("batch_size", .num 1)],
           title := some "Empty Latent Image" }),
     (8, { class_type := "VAEDecode",
           inputs := [("samples", .link 3 0), ("vae", .link 4 2)],
           title := some "VAE Decode" }),
     (9, { class_type := "SaveImage",
           inputs := [("filename_prefix",
                       .str ("action_" ++ p.scene_type.str ++ "_" ++ toString now)),
                      ("images", .link 8 0)],
           title := some "Save Image" })]
  let w := if 1 < ws.clip_skip then
      let w := wfInsert w 10
        { class_type := "CLIPSetLastLayer",
          inputs := [("stop_at_clip_layer", .num (-(ws.clip_skip : ℚ))),
                     ("clip", .link 4 1)],
          title := some "CLIP Set Last Layer" }
      let w := setNodeInput w 1 "clip" (.link 10 0)
      setNodeInput w 2 "clip" (.link 10 0)
    else w
  match config.controlnet with
  | some cn => if cn.enabled then runpod_add_controlnet_nodes w cn else w
  | none => w

/-- `RunPodClient._select_model`: preferred-WAN substring match, then
any WAN model, then the scene-preference keyword table, then the first
available model, and finally the hardcoded guess
"sd_v1-5.safetensors" on an empty catalog. -/
def runpod_select_model (available_models : List String)
    (preferred_wan : Option String) (scene_type : SceneType) : String :=
  let fromPreferred := match preferred_wan with
    | some p => available_models.find? (fun m => strContains (strLower m) (strLower p))
    | none => none
  match fromPreferred with
  | some m => m
  | none =>
    let wan_models := available_models.filter (fun m => strContains (strLower m) "wan")
    match wan_models with
    | m :: _ => m
    | [] =>
      let preferences : List String := match scene_type with
        | .car_chase => ["realistic", "vision", "epic"]
        | .fight_scene => ["epic", "realistic", "dream"]
        | .explosion => ["juggernaut", "epic", "dream"]
        | .aerial_combat => ["dream", "epic", "realistic"]
        | .space_battle => ["dream", "sci", "epic"]
        | _ => ["realistic", "epic", "dream"]
      let fromPrefs := preferences.findSome?
        (fun pref => available_models.find? (fun m => strContains (strLower m) pref))
      match fromPrefs with
      | some m => m
      | none => match available_models with
        | m :: _ => m
        | [] => "sd_v1-5.safetensors"

/-! ## ActionWorkflowTemplate (src/src/workflows/workflow_templates.py) -/

/-- One entry of the `controlnets` parameter list of
`_create_multi_controlnet_workflow` (a dict with `type`, `image` and
optional `strength`). -/
structure CnParam where
  cn_type : String
  image : String
  strength : Option ℚ := none
deriving DecidableEq, Repr

/-- The `params` dict consumed by the image-workflow templates;
optional fields model `params.get(key, default)` with the defaults
applied at the use sites. -/
structure TemplateParams where
  prompt : String
  model_name : String
  negative_prompt : Option String := none
  seed : Option Int := none
  width : Option Nat := none
  height : Option Nat := none
  batch_size : Option Nat := none
  filename_prefix : Option String := none
  controlnets : List CnParam := []
deriving DecidableEq, Repr

/-- `ActionWorkflowTemplate._create_image_workflow`, using the
`wan_settings` of `_get_base_settings` (sampler "dpmpp_2m_karras",
scheduler "karras", 25 steps, cfg 6.5). -/
def create_image_workflow (params : TemplateParams) : Workflow :=
  [(1, { class_type := "CLIPTextEncode",
         inputs := [("text", .str params.prompt), ("clip", .link 4 1)] }),
   (2, { class_type := "CLIPTextEncode",
         inputs := [("text", .str (params.negative_prompt.getD "low quality, blurry")),
                    ("clip", .link 4 1)] }),
   (3, { class_type := "KSampler",
         inputs := [("seed", .num ((params.seed.getD 42 : Int) : ℚ)),
                    ("steps", .num 25),
                    ("cfg", .num 6.5),
                    ("sampler_name", .str "dpmpp_2m_karras"),
                    ("scheduler", .str "karras"),
                    ("denoise", .num 1),
                    ("model", .link 4 0),
                    ("positive", .link 1 0),
                    ("negative", .link 2 0),
                    ("latent_image", .link 5 0)] }),
   (4, { class_type := "CheckpointLoaderSimple",
         inputs := [("ckpt_name", .str params.model_name)] }),
   (5, { class_type := "EmptyLatentImage",
         inputs := [("width", .num ((params.width.getD 1024 : Nat) : ℚ)),
                    ("height", .num ((params.height.getD 1024 : Nat) : ℚ)),
                    ("batch_size", .num ((params.batch_size.getD 1 : Nat) : ℚ))] }),
   (8, { class_type := "VAEDecode",
         inputs := [("samples", .link 3 0), ("vae", .link 4 2)] }),
   (9, { class_type := "SaveImage",
         inputs := [("filename_prefix", .str (params.filename_prefix.getD "action_scene")),
                    ("images", .link 8 0)] })]

/-- The fixed type-to-preprocessor-class dict of
`_get_preprocessor_class`. -/
def preprocessors : List (String × String) :=
  [("openpose", "OpenposePreprocessor"),
   ("canny", "CannyEdgePreprocessor"),
   ("depth", "MiDaS-DepthMapPreprocessor"),
   ("lineart", "LineArtPreprocessor"),
   ("normal", "BAE-NormalMapPreprocessor"),
   ("seg", "SemSegPreprocessor")]

/-- `ActionWorkflowTemplate._get_preprocessor_class`:
`preprocessors.get(controlnet_type, "OpenposePreprocessor")`. -/
def get_preprocessor_class (controlnet_type : String) : String :=
  (preprocessors.lookup controlnet_type).getD "OpenposePreprocessor"

/-- The `for i, cn in enumerate(controlnets)` loop of
`_create_multi_controlnet_workflow`: block `i` occupies node ids
`10+4i .. 13+4i` (loader, image, preprocessor, apply); the apply node's
conditioning comes from text-encode node 1 for the first block and from
the previous block's apply node afterwards. -/
def addCnBlocks : Workflow → List CnParam → Nat → Workflow
  | w, [], _ => w
  | w, cn :: rest, i =>
      let cnId := 10 + i * 4
      let w := wfInsert w cnId
        { class_type := "ControlNetLoader",
          inputs := [("control_net_name", .str ("control_" ++ cn.cn_type ++ "_sd15.pth"))] }
      let w := wfInsert w (cnId + 1)
        { class_type := "LoadImage", inputs := [("image", .str cn.image)] }
      let w := wfInsert w (cnId + 2)
        { class_type := get_preprocessor_class cn.cn_type,
          inputs := [("image", .link (cnId + 1) 0)] }
      let cond := if i = 0 then IVal.link 1 0 else IVal.link (cnId - 1) 0
      let w := wfInsert w (cnId + 3)
        { class_type := "ControlNetApply",
          inputs := [("conditioning", cond), ("control_net", .link cnId 0),
                     ("image", .link (cnId + 2) 0),
                     ("strength", .num (cn.strength.getD 0.8))] }
      addCnBlocks w rest (i + 1)

/-- `ActionWorkflowTemplate._create_multi_controlnet_workflow`: the
image base workflow, the ControlNet blocks, and the sampler's
`positive` rewired to node `len(controlnets)*4 + 9`. -/
def create_multi_controlnet_workflow (params : TemplateParams) : Workflow :=
  let base := create_image_workflow params
  let w := addCnBlocks base params.controlnets 0
  setNodeInput w 3 "positive" (.link (params.controlnets.length * 4 + 9) 0)

/-! ## Structural validity of workflow graphs -/

/-- The node ids referenced by links in a node's inputs. -/
def nodeLinks (n : Node) : List Nat :=
  n.inputs.filterMap (fun kv => match kv.2 with | .link t _ => some t | _ => none)

/-- The dependency edges of a workflow: `(a, b)` when node `a` has a
link input produced by node `b`. -/
def wfEdges (w : Workflow) : List (Nat × Nat) :=
  w.flatMap (fun e => (nodeLinks e.2).map (fun t => (e.1, t)))

/-- Every link references a node id present in the same graph. -/
def linksClosed (w : Workflow) : Bool :=
  w.all (fun e => (nodeLinks e.2).all (fun t => (wfFind w t).isSome))

/-- Dependency reachability along one or more edges. -/
inductive Reach (w : Workflow) : Nat → Nat → Prop where
  | edge {a b : Nat} : (a, b) ∈ wfEdges w → Reach w a b
  | step {a b c : Nat} : (a, b) ∈ wfEdges w → Reach w b c → Reach w a c

/-- The graph is acyclic: no node depends on itself. -/
def Acyclic (w : Workflow) : Prop := ∀ a, ¬ Reach w a a

theorem reach_lt_of_measure {w : Workflow} {μ : Nat → Nat}
    (h : ∀ e ∈ wfEdges w, μ e.2 < μ e.1) :
    ∀ {a b : Nat}, Reach w a b → μ b < μ a := by
  intro a b hr
  induction hr with
  | edge hm => exact h _ hm
  | step hm _ ih => exact ih.trans (h _ hm)

/-- A measure strictly decreasing along every edge certifies
acyclicity. -/
theorem acyclic_of_measure {w : Workflow} (μ : Nat → Nat)
    (h : ∀ e ∈ wfEdges w, μ e.2 < μ e.1) : Acyclic w :=
  fun _ hr => lt_irrefl _ (reach_lt_of_measure h hr)

/-! ## Remote submission and polling (oracle-abstracted HTTP) -/

/-- The remote service's answer to the `POST /prompt` submission:
either the requests call raised (transport error, message `str(e)`), or
a response with a status code and the optional `prompt_id` field of its
JSON body (`none` models a body without that key, whose access raises
`KeyError`). -/
inductive SubmitResp where
  | raise (msg : String)
  | ok (status : Nat) (prompt_id : Option String)

/-- One save-node entry of a history response's `outputs` mapping:
its optional `images` list of filenames. -/
structure NodeOutput where
  images : Option (List String)
deriving DecidableEq, Repr

/-- The history entry keyed by the job id: its optional `outputs`
mapping from save-node id to outputs. -/
structure HistEntry where
  outputs : Option (List (Nat × NodeOutput))
deriving DecidableEq, Repr

/-- The remote service's answer to one `GET /history/{prompt_id}` poll:
a raised transport error, or a response with a status code and the
optional entry stored under the job id. -/
inductive PollResp where
  | raise (msg : String)
  | ok (status : Nat) (entry : Option HistEntry)

/-- The remote behaviour observed by one submission: the submit
response and the response to the k-th poll. -/
structure RemoteOracle where
  submit : SubmitResp
  poll : Nat → PollResp

/-! ### ComfyUIClient._submit_workflow / generate_scene -/

/-- The dict returned by `ComfyUIClient._submit_workflow`. -/
structure ComfySubmitResult where
  image_url : String
  workflow_id : Option String
deriving DecidableEq, Repr

/-- The development fallback returned by the `except` handler of
`ComfyUIClient._submit_workflow`: a placeholder image and no error
information of any kind. -/
def comfyuiFallback : ComfySubmitResult :=
  { image_url := "/static/images/placeholder_action.jpg",
    workflow_id := some "dev_fallback" }

/-- The body of one iteration of the ComfyUI polling loop applied to
the poll response: `some r` when the loop exits on this response (a
successful extraction, or an exception caught by the enclosing
handler), `none` when the loop runs again. -/
def comfyuiLoopBody (pid : String) (r : PollResp) : Option ComfySubmitResult :=
  match r with
  | .raise _ => some comfyuiFallback
  | .ok status entry =>
    if status = 200 then
      match entry with
      | some e =>
        match e.outputs with
        | none => some comfyuiFallback
        | some outs =>
          match outs.lookup 9 with
          | some nout =>
            match nout.images with
            | some [] => some comfyuiFallback
            | some (fn :: _) =>
                some { image_url := "/static/output/" ++ fn, workflow_id := some pid }
            | none => none
          | none => none
      | none => none
    else none

/-- The unbounded `while True` polling loop of
`ComfyUIClient._submit_workflow`, observed for `fuel` iterations
starting at poll index `k`: `none` means the loop is still running
after `fuel` iterations (the source has no timeout check of any
kind). -/
def comfyuiPollLoop (o : RemoteOracle) (pid : String) : Nat → Nat → Option ComfySubmitResult
  | _, 0 => none
  | k, fuel + 1 =>
    match comfyuiLoopBody pid (o.poll k) with
    | some r => some r
    | none => comfyuiPollLoop o pid (k + 1) fuel

/-- `ComfyUIClient._submit_workflow` (the submitted workflow value does
not influence the oracle-abstracted remote behaviour): `none` means the
call has not returned within `fuel` polling iterations. -/
def comfyui_submit_workflow (o : RemoteOracle) (fuel : Nat) : Option ComfySubmitResult :=
  match o.submit with
  | .raise _ => some comfyuiFallback
  | .ok status pid =>
    if status ≠ 200 then some comfyuiFallback
    else match pid with
    | none => some comfyuiFallback
    | some pid => comfyuiPollLoop o pid 0 fuel

/-- The `metadata` dict of `ComfyUIClient.generate_scene`. -/
structure ComfyMetadata where
  enhanced_prompt : String
  scene_type : SceneType
  violence_level : ViolenceLevel
deriving DecidableEq, Repr

/-- The dict returned by `ComfyUIClient.generate_scene`
(`generation_time`, a wall-clock measurement, is outside the
embedding).  The dict never carries an "error" key, embedded as the
`error` field being `none` on every path. -/
structure ComfyGenResult where
  image_url : String
  workflow_id : Option String
  metadata : ComfyMetadata
  error : Option String
deriving DecidableEq, Repr

/-- `ComfyUIClient.generate_scene`. -/
def comfyui_generate_scene (o : RemoteOracle) (fuel : Nat) (prompt : String)
    (p : SceneParameters) (config : GenerationConfig) : Option ComfyGenResult :=
  let enhanced := build_action_prompt prompt p
  let _wf := comfyui_create_workflow enhanced p config
  (comfyui_submit_workflow o fuel).map (fun r =>
    { image_url := r.image_url, workflow_id := r.workflow_id,
      metadata := { enhanced_prompt := enhanced, scene_type := p.scene_type,
                    violence_level := p.violence_level },
      error := none })

/-! ### RunPodClient._submit_workflow / generate_scene -/

/-- The dict returned by `RunPodClient._submit_workflow` (the success
dict carries `prompt_id` and `filename`, the fallback dict carries
`error`; absent keys are `none`). -/
structure RunpodSubmitResult where
  image_url : String
  prompt_id : Option String
  filename : Option String
  error : Option String
deriving DecidableEq, Repr

/-- The fallback dict of the `except` handler of
`RunPodClient._submit_workflow`: placeholder image plus `str(e)`. -/
def runpodFallback (msg : String) : RunpodSubmitResult :=
  { image_url := "/static/images/placeholder_action.jpg",
    prompt_id := none, filename := none, error := some msg }

/-- How the RunPod polling loop leaves its `for attempt in range(120)`
body: a successful filename extraction, an exception (transport error,
`KeyError` on a missing "outputs" key, or `IndexError` on an empty
images list), or exhaustion of the 120 attempts. -/
inductive RunpodLoopOut where
  | found (filename : String)
  | raised (msg : String)
  | timeout
deriving DecidableEq, Repr

/-- The body of one iteration of the RunPod polling loop: `some` when
the loop exits on this response, `none` when it continues. -/
def runpodLoopBody (r : PollResp) : Option RunpodLoopOut :=
  match r with
  | .raise msg => some (.raised msg)
  | .ok status entry =>
    if status = 200 then
      match entry with
      | some e =>
        match e.outputs with
        | none => some (.raised "\x27outputs\x27")
        | some outs =>
          match outs.lookup 9 with
          | some nout =>
            match nout.images with
            | some [] => some (.raised "list index out of range")
            | some (fn :: _) => some (.found fn)
            | none => none
          | none => none
      | none => none
    else none

/-- The bounded polling loop `for attempt in range(120)` of
`RunPodClient._submit_workflow`, with `k` the current poll index and
`n` the remaining attempts. -/
def runpodPollLoop (o : RemoteOracle) : Nat → Nat → RunpodLoopOut
  | _, 0 => .timeout
  | k, n + 1 =>
    match runpodLoopBody (o.poll k) with
    | some out => out
    | none => runpodPollLoop o (k + 1) n

/-- `RunPodClient._submit_workflow`: submission errors, polling
exceptions and the 120-attempt exhaustion (`Exception("Generation
timeout")`) are all caught by the enclosing handler and turned into the
placeholder fallback dict; the function always returns. -/
def runpod_submit_workflow (o : RemoteOracle) (pod_url : String) : RunpodSubmitResult :=
  match o.submit with
  | .raise msg => runpodFallback msg
  | .ok status pid =>
    if status ≠ 200 then runpodFallback ("Failed to submit workflow: " ++ toString status)
    else match pid with
    | none => runpodFallback "\x27prompt_id\x27"
    | some pid =>
      match runpodPollLoop o 0 120 with
      | .found fn =>
          { image_url := pod_url ++ "/view?filename=" ++ fn ++ "&type=output",
            prompt_id := some pid, filename := some fn, error := none }
      | .raised msg => runpodFallback msg
      | .timeout => runpodFallback "Generation timeout"

/-- The `metadata` dict of `RunPodClient.generate_scene`. -/
structure RunpodMetadata where
  enhanced_prompt : String
  scene_type : SceneType
  violence_level : ViolenceLevel
  runpod_generation : Bool
deriving DecidableEq, Repr

/-- The dict returned by `RunPodClient.generate_scene`
(`generation_time` omitted as wall-clock measurement).  On the
reachable path this dict has no "error" key (`error := none`): the
`except` branch of `generate_scene`, which would set one, is
unreachable because `_submit_workflow` catches every exception
internally. -/
structure RunpodGenResult where
  image_url : String
  model_used : String
  pod_url : String
  metadata : RunpodMetadata
  error : Option String
deriving DecidableEq, Repr

/-- `RunPodClient.generate_scene`: builds the enhanced prompt, selects
a model from the discovered catalog (`models`), builds the workflow
(at wall-clock second `now`), submits and wraps the result.  The
submit result's own `error` key is not copied into the returned
dict. -/
def runpod_generate_scene (o : RemoteOracle) (pod_url : String) (models : List String)
    (now : Nat) (prompt : String) (p : SceneParameters) (config : GenerationConfig)
    (wan_model : Option String) : RunpodGenResult :=
  let enhanced := build_action_prompt prompt p
  let model_name := runpod_select_model models wan_model p.scene_type
  let _wf := runpod_create_workflow enhanced p config model_name now
  let r := runpod_submit_workflow o pod_url
  { image_url := r.image_url, model_used := model_name, pod_url := pod_url,
    metadata := { enhanced_prompt := enhanced, scene_type := p.scene_type,
                  violence_level := p.violence_level, runpod_generation := true },
    error := none }

/-! ## Derived accessors, decomposition helpers and claim-side
formulas -/

/-- The input value `workflow[id]["inputs"][key]`. -/
def nodeInput (w : Workflow) (id : Nat) (key : String) : Option IVal :=
  (wfFind w id).bind (fun nd => nd.inputs.lookup key)

/-- Structural validity: acyclic and every link target present. -/
def StructValid (w : Workflow) : Prop := Acyclic w ∧ linksClosed w = true

/-- The association list of LoRA loader nodes produced by the
`_add_lora_nodes` insertion loop when all inserted ids are fresh
(decomposition helper used to reason about `addLoraLoop`). -/
def loraChain : List String → Nat → IVal → IVal → Workflow
  | [], _, _, _ => []
  | l :: ls, nid, m, c =>
      (nid, loraNode l m c) :: loraChain ls (nid + 1) (.link nid 0) (.link nid 1)

/-- The apply node of the `i`-th ControlNet block of
`_create_multi_controlnet_workflow`. -/
def cnApplyNode (i : Nat) (cn : CnParam) : Node :=
  { class_type := "ControlNetApply",
    inputs := [("conditioning", if i = 0 then IVal.link 1 0 else IVal.link (10 + i * 4 - 1) 0),
               ("control_net", .link (10 + i * 4) 0),
               ("image", .link (10 + i * 4 + 2) 0),
               ("strength", .num (cn.strength.getD 0.8))] }

/-- The four nodes of the `i`-th ControlNet block of
`_create_multi_controlnet_workflow`. -/
def cnBlock (i : Nat) (cn : CnParam) : Workflow :=
  [(10 + i * 4,
    { class_type := "ControlNetLoader",
      inputs := [("control_net_name", .str ("control_" ++ cn.cn_type ++ "_sd15.pth"))] }),
   (10 + i * 4 + 1,
    { class_type := "LoadImage", inputs := [("image", .str cn.image)] }),
   (10 + i * 4 + 2,
    { class_type := get_preprocessor_class cn.cn_type,
      inputs := [("image", .link (10 + i * 4 + 1) 0)] }),
   (10 + i * 4 + 3, cnApplyNode i cn)]

/-- The association list of all ControlNet blocks from index `i` on
(decomposition helper used to reason about `addCnBlocks`). -/
def cnBlocksList : List CnParam → Nat → Workflow
  | [], _ => []
  | cn :: rest, i => cnBlock i cn ++ cnBlocksList rest (i + 1)

/-- A measure certifying acyclicity of the ComfyUI base graph extended
with a chain of `n` LoRA loaders. -/
def comfyuiLoraMeasure (n : Nat) (id : Nat) : Nat :=
  if id = 4 ∨ id = 5 then 0
  else if 20 ≤ id then id - 19
  else if id = 1 ∨ id = 2 then n + 1
  else if id = 3 then n + 2
  else if id = 8 then n + 3
  else n + 4

/-- Claim C7's component list, exactly as the claim states it: base
prompt, up to 3 scene keywords, up to 2 violence phrases, up to 2
camera phrases, a "set in" clause when setting is non-empty, up to 2
lighting phrases when the lighting key is recognized else the raw
lighting string, the motion-blur pair, a capped "featuring" clause, a
capped "with" clause, 4 quality enhancers, 3 action enhancers — and
nothing else. -/
def claimedPromptComponents (base_prompt : String) (p : SceneParameters) : List String :=
  [base_prompt]
  ++ (scene_keywords p.scene_type).take 3
  ++ (violence_modifiers p.violence_level).take 2
  ++ (camera_modifiers p.camera_angle).take 2
  ++ (if p.setting ≠ "" then ["set in " ++ p.setting] else [])
  ++ (match lighting_styles.lookup p.lighting with
      | some ws => ws.take 2
      | none => [p.lighting])
  ++ (if p.motion_blur then ["motion blur", "speed effect"] else [])
  ++ (if p.characters ≠ [] then ["featuring " ++ joinComps (p.characters.take 2)] else [])
  ++ (if p.props ≠ [] then ["with " ++ joinComps (p.props.take 3)] else [])
  ++ quality_enhancers.take 4
  ++ action_enhancers.take 3

/-- Claim C7's component list amended only as the code forces: an
unrecognized lighting key contributes nothing (there is no raw-string
fallback), and a "{time_of_day} time" clause (when time_of_day is not
"day") and a "{weather} weather" clause (when weather is non-empty)
appear between the lighting phrases and the motion-blur pair. -/
def amendedPromptComponents (base_prompt : String) (p : SceneParameters) : List String :=
  [base_prompt]
  ++ (scene_keywords p.scene_type).take 3
  ++ (violence_modifiers p.violence_level).take 2
  ++ (camera_modifiers p.camera_angle).take 2
  ++ (if p.setting ≠ "" then ["set in " ++ p.setting] else [])
  ++ (match lighting_styles.lookup p.lighting with
      | some ws => ws.take 2
      | none => [])
  ++ (if p.time_of_day ≠ "day" then [p.time_of_day ++ " time"] else [])
  ++ (if p.weather ≠ "" then [p.weather ++ " weather"] else [])
  ++ (if p.motion_blur then ["motion blur", "speed effect"] else [])
  ++ (if p.characters ≠ [] then ["featuring " ++ joinComps (p.characters.take 2)] else [])
  ++ (if p.props ≠ [] then ["with " ++ joinComps (p.props.take 3)] else [])
  ++ quality_enhancers.take 4
  ++ action_enhancers.take 3

/-- The poll response shows the job id: HTTP 200 with the job id
present in the history body. -/
def pollShowsJob : PollResp → Bool
  | .ok status (some _) => status == 200
  | _ => false

/-- The poll response is a raised transport error. -/
def pollRaisesTransport : PollResp → Bool
  | .raise _ => true
  | _ => false

/-- The submission phase fails: the POST raised, returned a non-200
status, or returned a body without a `prompt_id`. -/
def submitRejected : SubmitResp → Bool
  | .raise _ => true
  | .ok status pid => status != 200 || pid.isNone

/-- The ComfyUI generation call never returns, at any observation
depth, for this remote behaviour. -/
def comfyuiSubmitNeverReturns (o : RemoteOracle) : Prop :=
  ∀ fuel : Nat, comfyui_submit_workflow o fuel = none

/-! ## Concrete fixtures used by counterexamples and witnesses -/

/-- A representative scene-parameter value with all optional fields at
their defaults. -/
def sceneFix : SceneParameters :=
  { scene_type := .fight_scene, violence_level := .r_rated, camera_angle := .wide_shot }

/-- A representative generation config with all defaults. -/
def cfgFix : GenerationConfig := {}

/-- Scene parameters with a recognized lighting key and a non-empty
weather field. -/
def weatherParamsFix : SceneParameters :=
  { sceneFix with lighting := "dramatic", weather := "rain" }

/-- An enabled openpose ControlNet attachment with strength 0.8. -/
def cnOpenposeFix : ControlNetConfig := { cn_type := "openpose", strength := 0.8 }

/-- A generation config carrying the openpose ControlNet attachment. -/
def cfgCnFix : GenerationConfig := { controlnet := some cnOpenposeFix }

/-- Template params requesting width 700 (not a multiple of 64). -/
def tplWidth700Fix : TemplateParams :=
  { prompt := "hero mid-air kick", model_name := "epicrealismXL_v10.safetensors",
    width := some 700 }

/-- Template params with a single openpose ControlNet of strength 0.8. -/
def tplSingleCnFix : TemplateParams :=
  { prompt := "hero fight", model_name := "epicrealismXL_v10.safetensors",
    controlnets := [{ cn_type := "openpose", image := "pose.png", strength := some 0.8 }] }

/-- Template params with two ControlNet attachments. -/
def tplTwoCnFix : TemplateParams :=
  { prompt := "hero fight", model_name := "epicrealismXL_v10.safetensors",
    controlnets := [{ cn_type := "openpose", image := "pose.png", strength := some 0.8 },
                    { cn_type := "depth", image := "depth.png", strength := some 0.5 }] }

/-- A remote behaviour whose submission is rejected with HTTP 500 and
a body without a prompt id. -/
def rejectOracle : RemoteOracle :=
  { submit := .ok 500 none, poll := fun _ => .ok 200 none }

/-- A remote behaviour whose submission raises a transport error. -/
def transportFailOracle : RemoteOracle :=
  { submit := .raise "Connection refused", poll := fun _ => .ok 200 none }

/-- A remote behaviour that accepts the submission but whose history
responses never contain the job id. -/
def idNeverOracle : RemoteOracle :=
  { submit := .ok 200 (some "abc123"), poll := fun _ => .ok 200 none }

/-- The ComfyUI builder skips the ControlNet splice: no attachment, or
a disabled one (the claim's failure cases are exactly the enabled
splices, whose preprocessor wiring is dangling). -/
def comfyuiCnOk : Option ControlNetConfig → Prop
  | none => True
  | some cn => cn.enabled = false

/-- The RunPod builder's ControlNet splice resolves: no attachment, a
disabled one, or one of the two types (openpose, canny) for which the
preprocessor node 13 is actually inserted. -/
def runpodCnOk : Option ControlNetConfig → Prop
  | none => True
  | some cn => cn.enabled = false ∨ cn.cn_type = "openpose" ∨ cn.cn_type = "canny"

/-- A measure certifying acyclicity for every shape of the RunPod
builder's graphs (base, CLIP-skip, ControlNet variants). -/
def runpodMeasure (id : Nat) : Nat :=
  if id = 4 ∨ id = 5 ∨ id = 11 ∨ id = 12 then 0
  else if id = 10 ∨ id = 13 then 1
  else if id = 1 ∨ id = 2 then 2
  else if id = 14 then 3
  else if id = 3 then 4
  else if id = 8 then 5
  else 6

/-- Executable check that a measure strictly decreases along every
edge of a workflow. -/
def edgesDecrease (w : Workflow) (μ : Nat → Nat) : Bool :=
  (wfEdges w).all (fun e => μ e.2 < μ e.1)

/-- The ComfyUI base workflow after `_add_lora_nodes` rewires both
text encoders' `clip` inputs and the sampler's `model` input to the
outputs of the final LoRA node `19 + n` (decomposition helper). -/
def comfyuiBaseRewired (prompt : String) (p : SceneParameters)
    (config : GenerationConfig) (n : Nat) : Workflow :=
  setNodeInput (setNodeInput (setNodeInput
    (comfyuiBaseWorkflow prompt p config)
    1 "clip" (.link (19 + n) 1))
    2 "clip" (.link (19 + n) 1))
    3 "model" (.link (19 + n) 0)

/-! # Helper lemmas on workflow operations -/

theorem wfFind_insert (w : Workflow) (id : Nat) (nd : Node) (j : Nat) :
    wfFind (wfInsert w id nd) j = if id = j then some nd else wfFind w j := by
  induction w with
  | nil => by_cases hj : id = j <;> simp [wfInsert, wfFind, hj]
  | cons e t ih =>
    obtain ⟨k, n⟩ := e
    by_cases hk : k = id
    · by_cases hj : k = j <;>
        simp_all [wfInsert, wfFind]
    · by_cases hj : k = j
      · have hij : ¬ id = j := fun h => hk (hj.trans h.symm)
        have hji : ¬ j = id := fun h => hij h.symm
        simp [wfInsert, wfFind, hk, hj, hij, hji]
      · simp [wfInsert, wfFind, hk, hj, ih]

theorem wfFind_setNodeInput (w : Workflow) (id : Nat) (key : String) (v : IVal) (j : Nat) :
    wfFind (setNodeInput w id key v) j =
      if id = j then
        (wfFind w j).map (fun nd => { nd with inputs := setKey nd.inputs key v })
      else wfFind w j := by
  induction w with
  | nil => by_cases hj : id = j <;> simp [setNodeInput, wfFind, hj]
  | cons e t ih =>
    obtain ⟨k, n⟩ := e
    by_cases hk : k = id
    · by_cases hj : k = j <;>
        simp_all [setNodeInput, wfFind]
    · by_cases hj : k = j
      · have hij : ¬ id = j := fun h => hk (hj.trans h.symm)
        have hji : ¬ j = id := fun h => hij h.symm
        simp [setNodeInput, wfFind, hk, hj, hij, hji]
      · simp [setNodeInput, wfFind, hk, hj, ih]

theorem wfInsert_fresh (w : Workflow) (id : Nat) (nd : Node)
    (h : ∀ k ∈ w.map Prod.fst, k ≠ id) :
    wfInsert w id nd = w ++ [(id, nd)] := by
  induction w with
  | nil => rfl
  | cons e t ih =>
    obtain ⟨k, n⟩ := e
    have hk : k ≠ id := h k (by simp)
    simp only [wfInsert, if_neg hk, List.cons_append, List.cons.injEq, true_and]
    exact ih fun k2 hk2 => h k2 (by simp at hk2 ⊢; exact Or.inr hk2)

theorem wfFind_append (w₁ w₂ : Workflow) (j : Nat) :
    wfFind (w₁ ++ w₂) j =
      match wfFind w₁ j with
      | some nd => some nd
      | none => wfFind w₂ j := by
  induction w₁ with
  | nil => simp [wfFind]
  | cons e t ih =>
    obtain ⟨k, n⟩ := e
    by_cases hj : k = j <;> simp [wfFind, hj, ih]

theorem setNodeInput_append (w₁ w₂ : Workflow) (id : Nat) (key : String) (v : IVal) :
    setNodeInput (w₁ ++ w₂) id key v = setNodeInput w₁ id key v ++ setNodeInput w₂ id key v := by
  induction w₁ with
  | nil => rfl
  | cons e t ih =>
    obtain ⟨k, n⟩ := e
    by_cases hk : k = id <;> simp [setNodeInput, hk, ih]

theorem setNodeInput_not_mem (w : Workflow) (id : Nat) (key : String) (v : IVal)
    (h : ∀ k ∈ w.map Prod.fst, k ≠ id) :
    setNodeInput w id key v = w := by
  induction w with
  | nil => rfl
  | cons e t ih =>
    obtain ⟨k, n⟩ := e
    have hk : k ≠ id := h k (by simp)
    simp only [setNodeInput, if_neg hk, List.cons.injEq, true_and]
    exact ih fun k2 hk2 => h k2 (by simp at hk2 ⊢; exact Or.inr hk2)

theorem wfFind_none_of_keys (w : Workflow) (j : Nat)
    (h : ∀ k ∈ w.map Prod.fst, k ≠ j) : wfFind w j = none := by
  induction w with
  | nil => rfl
  | cons e t ih =>
    obtain ⟨k, n⟩ := e
    have hk : k ≠ j := h k (by simp)
    simp only [wfFind, if_neg hk]
    exact ih fun k2 hk2 => h k2 (by simp at hk2 ⊢; exact Or.inr hk2)

theorem linksClosed_iff (w : Workflow) :
    linksClosed w = true ↔ ∀ e ∈ wfEdges w, (wfFind w e.2).isSome = true := by
  simp only [linksClosed, List.all_eq_true, wfEdges, List.mem_flatMap, List.mem_map]
  constructor
  · rintro h e ⟨a, ha, t, ht, rfl⟩
    exact h a ha t ht
  · intro h a ha t ht
    exact h (a.1, t) ⟨a, ha, t, ht, rfl⟩

/-! # Claim C3 -/

/-- C3: the claim states that an empty model catalog makes model
selection fail with `NoModelAvailable` and never yields a fabricated
or hardcoded filename.  The spec flags the source behaviour as a bug:
evaluating `_select_model` on the empty catalog shows the code instead
returns the hardcoded guess "sd_v1-5.safetensors". -/
theorem C3_empty_catalog_returns_hardcoded_guess :
    runpod_select_model [] none SceneType.fight_scene = "sd_v1-5.safetensors" := rfl

/-! # Claim C9 -/

/-- C9 counterexample: the claim states that a ControlNet type outside
the six-entry table makes graph building fail with
`UnsupportedControlNetType` rather than silently substituting a
default; but `_get_preprocessor_class` on the unmapped type "scribble"
silently returns the default preprocessor class
"OpenposePreprocessor". -/
theorem C9_cex_unknown_type_gets_default :
    get_preprocessor_class "scribble" = "OpenposePreprocessor" := by decide

/-- C9 amended: for every ControlNet type with no entry in the fixed
type-to-preprocessor-class table (outside openpose, canny, depth,
lineart, normal, seg), `_get_preprocessor_class` silently substitutes
the default preprocessor class "OpenposePreprocessor"; no
`UnsupportedControlNetType` failure exists in the code. -/
theorem C9_unsupported_type_silently_defaults (t : String)
    (h : t ∉ ["openpose", "canny", "depth", "lineart", "normal", "seg"]) :
    get_preprocessor_class t = "OpenposePreprocessor" := by
  simp only [List.mem_cons, List.not_mem_nil, or_false, not_or] at h
  obtain ⟨h1, h2, h3, h4, h5, h6⟩ := h
  have b1 : (t == "openpose") = false := beq_eq_false_iff_ne.mpr h1
  have b2 : (t == "canny") = false := beq_eq_false_iff_ne.mpr h2
  have b3 : (t == "depth") = false := beq_eq_false_iff_ne.mpr h3
  have b4 : (t == "lineart") = false := beq_eq_false_iff_ne.mpr h4
  have b5 : (t == "normal") = false := beq_eq_false_iff_ne.mpr h5
  have b6 : (t == "seg") = false := beq_eq_false_iff_ne.mpr h6
  simp [get_preprocessor_class, preprocessors, List.lookup, b1, b2, b3, b4, b5, b6]

/-- C9 witness: the amended theorem applied to the concrete unmapped
type "tile". -/
theorem C9_unsupported_witness :
    "tile" ∉ ["openpose", "canny", "depth", "lineart", "normal", "seg"] ∧
    get_preprocessor_class "tile" = "OpenposePreprocessor" :=
  ⟨by decide, C9_unsupported_type_silently_defaults "tile" (by decide)⟩

/-! # Claim C5 -/

/-- C5 counterexample: the claim states width 700 (not a multiple of
64) makes the graph builder fail with `InvalidDimensions` instead of
producing a workflow graph; but both cited builders return a complete
workflow whose latent node carries the invalid width unchanged. -/
theorem C5_cex_width700_builds_graph :
    wfFind (create_image_workflow tplWidth700Fix) 5 =
      some { class_type := "EmptyLatentImage",
             inputs := [("width", .num 700), ("height", .num 1024), ("batch_size", .num 1)] } ∧
    (create_image_workflow tplWidth700Fix).length = 7 ∧
    wfFind (runpod_create_workflow "hero mid-air kick" sceneFix { cfgFix with width := 700 }
        "epicrealismXL_v10.safetensors" 0) 5 =
      some { class_type := "EmptyLatentImage",
             inputs := [("width", .num 700), ("height", .num 1024), ("batch_size", .num 1)],
             title := some "Empty Latent Image" } := by
  refine ⟨by decide, by decide, by decide⟩

/-- C5 amended: neither builder validates dimensions — every width and
height, including values that are not positive multiples of 64, is
embedded unchanged in the `EmptyLatentImage` node of a normally
returned workflow graph; no `InvalidDimensions` failure exists in the
code. -/
theorem C5_no_dimension_validation :
    (∀ params : TemplateParams,
      wfFind (create_image_workflow params) 5 =
        some { class_type := "EmptyLatentImage",
               inputs := [("width", .num ((params.width.getD 1024 : Nat) : ℚ)),
                          ("height", .num ((params.height.getD 1024 : Nat) : ℚ)),
                          ("batch_size", .num ((params.batch_size.getD 1 : Nat) : ℚ))] }) ∧
    (∀ (prompt : String) (p : SceneParameters) (config : GenerationConfig)
       (model_name : String) (now : Nat),
      wfFind (runpod_create_workflow prompt p config model_name now) 5 =
        some { class_type := "EmptyLatentImage",
               inputs := [("width", .num (config.width : ℚ)),
                          ("height", .num (config.height : ℚ)),
                          ("batch_size", .num 1)],
               title := some "Empty Latent Image" }) := by
  constructor
  · intro params
    rfl
  · intro prompt p config model_name now
    unfold runpod_create_workflow
    rcases config.controlnet with _ | cn
    · by_cases hw : strContains (strLower model_name) "wan" <;>
        simp [get_wan_optimizations, hw, wfFind_insert, wfFind_setNodeInput, wfFind]
    · by_cases hw : strContains (strLower model_name) "wan" <;>
      by_cases he : cn.enabled <;>
      by_cases h1 : cn.cn_type = "openpose" <;>
      by_cases h2 : cn.cn_type = "canny" <;>
        simp [get_wan_optimizations, hw, he, h1, h2, runpod_add_controlnet_nodes,
          wfFind_insert, wfFind_setNodeInput, wfFind]

/-! # Claim C7 -/

theorem joinComps_head_prefix (x : String) (l : List String) :
    ∃ t, joinComps (x :: l) = x ++ t := by
  match l with
  | [] => exact ⟨"", by simp [joinComps]⟩
  | y :: t => exact ⟨", " ++ joinComps (y :: t), by simp [joinComps, String.append_assoc]⟩

set_option maxRecDepth 100000 in
/-- C7 counterexample: the claim lists the exact components of the
enhanced prompt; on scene parameters with a non-empty weather field
the code's output contains an extra "rain weather" component (the code
also inserts time-of-day clauses and drops unrecognized lighting keys
instead of passing them through raw), so the output differs from the
claimed ", "-join. -/
theorem C7_cex_weather_component_missing_from_claim :
    build_action_prompt "two fighters clash" weatherParamsFix ≠
      joinComps (claimedPromptComponents "two fighters clash" weatherParamsFix) := by
  decide

/-- C7 amended: the enhanced prompt equals the ", "-join of exactly
the claimed components with two corrections forced by the code: an
unrecognized lighting key contributes nothing (no raw-string
fallback), and a "{time_of_day} time" clause (when time_of_day is not
"day") followed by a "{weather} weather" clause (when weather is
non-empty) appear between the lighting phrases and the motion-blur
pair.  The output always begins with the base prompt. -/
theorem C7_prompt_equals_amended_components :
    ∀ (base_prompt : String) (p : SceneParameters),
      build_action_prompt base_prompt p = joinComps (amendedPromptComponents base_prompt p) ∧
      ∃ t, build_action_prompt base_prompt p = base_prompt ++ t := by
  intro base p
  constructor
  · simp [build_action_prompt, promptComponents, amendedPromptComponents, ite_not]
  · exact joinComps_head_prefix base _

/-! # Claim C8 -/

/-- C8 counterexample: the claim states that building twice from
identical inputs (including the seed) yields structurally identical
graphs with no nondeterminism beyond the seed; but
`_create_runpod_workflow` embeds `int(time.time())` in node 9's
`filename_prefix`, so two builds from identical caller inputs at
clock seconds 0 and 1 differ. -/
theorem C8_cex_wall_clock_in_graph :
    runpod_create_workflow "punch" sceneFix cfgFix "epicrealismXL_v10.safetensors" 0 ≠
    runpod_create_workflow "punch" sceneFix cfgFix "epicrealismXL_v10.safetensors" 1 := by
  intro h
  have h9 := congrArg (fun w => nodeInput w 9 "filename_prefix") h
  have e0 : nodeInput (runpod_create_workflow "punch" sceneFix cfgFix
      "epicrealismXL_v10.safetensors" 0) 9 "filename_prefix" =
      some (.str "action_fight_scene_0") := rfl
  have e1 : nodeInput (runpod_create_workflow "punch" sceneFix cfgFix
      "epicrealismXL_v10.safetensors" 1) 9 "filename_prefix" =
      some (.str "action_fight_scene_1") := rfl
  dsimp only at h9
  rw [e0, e1] at h9
  simp at h9

/-- C8 amended: the builder is deterministic in its inputs up to the
wall-clock timestamp: with node 9's `filename_prefix` overwritten, two
builds from identical request fields, model id and prompts at any two
clock values produce identical graphs — the timestamp in the save
node's filename prefix is the only extra source of nondeterminism
beyond the caller-supplied seed. -/
theorem C8_deterministic_up_to_timestamp :
    ∀ (prompt : String) (p : SceneParameters) (config : GenerationConfig)
      (model_name : String) (t₁ t₂ : Nat),
      setNodeInput (runpod_create_workflow prompt p config model_name t₁)
          9 "filename_prefix" (.str "") =
      setNodeInput (runpod_create_workflow prompt p config model_name t₂)
          9 "filename_prefix" (.str "") := by
  intro prompt p config model_name t₁ t₂
  unfold runpod_create_workflow
  rcases config.controlnet with _ | cn
  · by_cases hw : strContains (strLower model_name) "wan" <;>
      simp [get_wan_optimizations, hw, wfInsert, setNodeInput, setKey]
  · by_cases hw : strContains (strLower model_name) "wan" <;>
    by_cases he : cn.enabled <;>
    by_cases h1 : cn.cn_type = "openpose" <;>
    by_cases h2 : cn.cn_type = "canny" <;>
      simp [get_wan_optimizations, hw, he, h1, h2, runpod_add_controlnet_nodes,
        wfInsert, setNodeInput, setKey]

/-! # Claim C2 -/

theorem runpodLoopBody_none (r : PollResp)
    (h1 : pollShowsJob r = false) (h2 : pollRaisesTransport r = false) :
    runpodLoopBody r = none := by
  match r with
  | .raise msg => simp [pollRaisesTransport] at h2
  | .ok status none => by_cases hs : status = 200 <;> simp [runpodLoopBody, hs]
  | .ok status (some e) =>
    have hs : ¬ status = 200 := by
      simpa [pollShowsJob] using h1
    simp [runpodLoopBody, hs]

theorem runpodPollLoop_timeout (o : RemoteOracle)
    (h : ∀ k, pollShowsJob (o.poll k) = false ∧ pollRaisesTransport (o.poll k) = false) :
    ∀ n k, runpodPollLoop o k n = .timeout := by
  intro n
  induction n with
  | zero => intro k; rfl
  | succ n ih =>
    intro k
    have hb := runpodLoopBody_none (o.poll k) (h k).1 (h k).2
    simp only [runpodPollLoop, hb]
    exact ih (k + 1)

/-- C2 amended: for the RunPod client, every submission accepted with a
job id whose id never appears in the (non-raising) history responses
makes the polling loop stop after its fixed budget of 120 one-second
polls — a hardcoded two-minute cap, not a caller-configured timeout —
and the call returns (does not raise) the placeholder artifact with the
non-empty error string "Generation timeout".  The ComfyUI client's
polling loop, by contrast, has no timeout at all and never returns in
this situation (see the counterexample). -/
theorem C2_runpod_timeout_returns_placeholder_error :
    ∀ (o : RemoteOracle) (pod_url : String) (pid : String),
      o.submit = .ok 200 (some pid) →
      (∀ k, pollShowsJob (o.poll k) = false ∧ pollRaisesTransport (o.poll k) = false) →
      runpod_submit_workflow o pod_url =
        { image_url := "/static/images/placeholder_action.jpg",
          prompt_id := none, filename := none, error := some "Generation timeout" } := by
  intro o pod_url pid hs hp
  unfold runpod_submit_workflow
  rw [hs]
  simp [runpodPollLoop_timeout o hp 120 0, runpodFallback]

/-- C2 witness: the amended theorem evaluated on the oracle whose
polls never contain the job id. -/
theorem C2_runpod_timeout_witness :
    runpod_submit_workflow idNeverOracle "https://pod-host" =
      { image_url := "/static/images/placeholder_action.jpg",
        prompt_id := none, filename := none, error := some "Generation timeout" } :=
  C2_runpod_timeout_returns_placeholder_error idNeverOracle "https://pod-host" "abc123" rfl
    (fun _ => ⟨rfl, rfl⟩)

theorem comfyuiPollLoop_never (fuel : Nat) :
    ∀ k, comfyuiPollLoop idNeverOracle "abc123" k fuel = none := by
  induction fuel with
  | zero => intro k; rfl
  | succ n ih =>
    intro k
    simp only [comfyuiPollLoop, idNeverOracle, comfyuiLoopBody]
    simpa using ih (k + 1)

/-- C2 counterexample: the claim states the polling loop of every
submit-and-wait can never run forever and yields a TIMED_OUT result
after the timeout; but the ComfyUI client's `while True` loop, on the
concrete remote behaviour whose submission is accepted and whose
history responses never contain the job id, is still running after
every number of iterations — no result (timed-out or otherwise) is
ever returned. -/
theorem C2_cex_comfyui_loop_never_terminates :
    comfyuiSubmitNeverReturns idNeverOracle := by
  intro fuel
  simp only [comfyui_submit_workflow, idNeverOracle]
  simpa using comfyuiPollLoop_never fuel 0

/-! # Claim C1 -/

theorem comfyui_submit_rejected_fallback (o : RemoteOracle) (fuel : Nat)
    (h : submitRejected o.submit = true) :
    comfyui_submit_workflow o fuel = some comfyuiFallback := by
  unfold comfyui_submit_workflow
  rcases ho : o.submit with msg | ⟨status, pid⟩
  · rfl
  · rw [ho] at h
    simp only [submitRejected, Bool.or_eq_true, bne_iff_ne, ne_eq,
      Option.isNone_iff_eq_none] at h
    rcases h with h | h
    · simp [h]
    · by_cases hs : status ≠ 200 <;> simp [hs, h]

theorem runpod_submit_error_placeholder (o : RemoteOracle) (pod_url : String) :
    (runpod_submit_workflow o pod_url).error.isSome = true →
    (runpod_submit_workflow o pod_url).image_url = "/static/images/placeholder_action.jpg" := by
  unfold runpod_submit_workflow
  rcases o.submit with msg | ⟨status, pid⟩
  · intro _; rfl
  · by_cases hs : status ≠ 200
    · simp [hs, runpodFallback]
    · simp only [hs, if_false]
      rcases pid with _ | pid
      · intro _; rfl
      · rcases h : runpodPollLoop o 0 120 with fn | msg | _ <;>
          simp [h, runpodFallback]

/-- C1 amended: generation failures are signalled only by the
placeholder artifact reference, never by an error description visible
to the caller: (1) every returned ComfyUI `generate_scene` dict has no
error field; (2) on any rejected/failed submission the ComfyUI call
returns the placeholder artifact with the sentinel workflow id
"dev_fallback" and no error field — indistinguishable from success
except by the placeholder URL; (3) in the RunPod client an error
string exists only inside `_submit_workflow`'s fallback dict, which
always carries the placeholder artifact; (4) `generate_scene` drops
that error string: its returned dict has no error field and merely
propagates the (possibly placeholder) image URL. -/
theorem C1_failures_yield_placeholder_without_error :
    (∀ (o : RemoteOracle) (fuel : Nat) (prompt : String) (p : SceneParameters)
       (config : GenerationConfig) (r : ComfyGenResult),
       comfyui_generate_scene o fuel prompt p config = some r → r.error = none) ∧
    (∀ (o : RemoteOracle) (fuel : Nat) (prompt : String) (p : SceneParameters)
       (config : GenerationConfig),
       submitRejected o.submit = true →
       comfyui_generate_scene o fuel prompt p config = some
         { image_url := "/static/images/placeholder_action.jpg",
           workflow_id := some "dev_fallback",
           metadata := { enhanced_prompt := build_action_prompt prompt p,
                         scene_type := p.scene_type, violence_level := p.violence_level },
           error := none }) ∧
    (∀ (o : RemoteOracle) (pod_url : String),
       (runpod_submit_workflow o pod_url).error.isSome = true →
       (runpod_submit_workflow o pod_url).image_url = "/static/images/placeholder_action.jpg") ∧
    (∀ (o : RemoteOracle) (pod_url : String) (models : List String) (now : Nat)
       (prompt : String) (p : SceneParameters) (config : GenerationConfig)
       (wan_model : Option String),
       (runpod_generate_scene o pod_url models now prompt p config wan_model).error = none ∧
       (runpod_generate_scene o pod_url models now prompt p config wan_model).image_url =
         (runpod_submit_workflow o pod_url).image_url) := by
  refine ⟨?_, ?_, ?_, ?_⟩
  · intro o fuel prompt p config r h
    unfold comfyui_generate_scene at h
    rcases hs : comfyui_submit_workflow o fuel with _ | s <;> rw [hs] at h
    · simp at h
    · have h2 := Option.some.inj h
      rw [← h2]
  · intro o fuel prompt p config h
    unfold comfyui_generate_scene
    rw [comfyui_submit_rejected_fallback o fuel h]
    rfl
  · exact runpod_submit_error_placeholder
  · intro o pod_url models now prompt p config wan_model
    exact ⟨rfl, rfl⟩

/-- C1 counterexample: the claim states no failing run ever yields a
placeholder artifact with no populated error field; but on the
concrete remote behaviour that rejects the submission with HTTP 500,
the ComfyUI generation call returns exactly that: the placeholder
artifact, workflow id "dev_fallback", and no error description. -/
theorem C1_cex_rejected_submission_reports_no_error :
    comfyui_generate_scene rejectOracle 0 "hero strike" sceneFix cfgFix =
      some { image_url := "/static/images/placeholder_action.jpg",
             workflow_id := some "dev_fallback",
             metadata := { enhanced_prompt := build_action_prompt "hero strike" sceneFix,
                           scene_type := .fight_scene, violence_level := .r_rated },
             error := none } := rfl

/-- C1 witness: the amended theorem applied to a transport-failure
submission. -/
theorem C1_witness_transport_failure :
    submitRejected transportFailOracle.submit = true ∧
    comfyui_generate_scene transportFailOracle 3 "duel at dawn" sceneFix cfgFix = some
      { image_url := "/static/images/placeholder_action.jpg",
        workflow_id := some "dev_fallback",
        metadata := { enhanced_prompt := build_action_prompt "duel at dawn" sceneFix,
                      scene_type := SceneType.fight_scene,
                      violence_level := ViolenceLevel.r_rated },
        error := none } :=
  ⟨rfl, C1_failures_yield_placeholder_without_error.2.1 transportFailOracle 3 "duel at dawn"
    sceneFix cfgFix rfl⟩

/-! # LoRA chain lemmas (shared by C10 and C4) -/

theorem loraChain_keys : ∀ (ls : List String) (nid : Nat) (m c : IVal) (k : Nat),
    k ∈ (loraChain ls nid m c).map Prod.fst → nid ≤ k ∧ k < nid + ls.length := by
  intro ls
  induction ls with
  | nil => intro nid m c k h; simp [loraChain] at h
  | cons l ls ih =>
    intro nid m c k h
    simp only [loraChain, List.map_cons, List.mem_cons] at h
    rcases h with h | h
    · subst h
      simp only [List.length_cons]
      omega
    · have := ih (nid + 1) (.link nid 0) (.link nid 1) k h
      simp only [List.length_cons]
      omega

theorem addLoraLoop_fst : ∀ (ls : List String) (w : Workflow) (nid : Nat) (m c : IVal),
    (∀ k ∈ w.map Prod.fst, k < nid) →
    (addLoraLoop w ls nid m c).1 = w ++ loraChain ls nid m c := by
  intro ls
  induction ls with
  | nil => intro w nid m c _; simp [addLoraLoop, loraChain]
  | cons l ls ih =>
    intro w nid m c h
    have hfresh : ∀ k ∈ w.map Prod.fst, k ≠ nid := fun k hk => Nat.ne_of_lt (h k hk)
    have h2 : ∀ k ∈ (w ++ [(nid, loraNode l m c)]).map Prod.fst, k < nid + 1 := by
      intro k hk
      simp only [List.map_append, List.mem_append, List.map_cons, List.map_nil,
        List.mem_cons, List.not_mem_nil, or_false] at hk
      rcases hk with hk | hk
      · exact Nat.lt_trans (h k hk) (Nat.lt_succ_self _)
      · omega
    simp only [addLoraLoop, loraChain]
    rw [wfInsert_fresh w nid _ hfresh, ih _ (nid + 1) (.link nid 0) (.link nid 1) h2,
      List.append_assoc]
    rfl

theorem addLoraLoop_snd : ∀ (ls : List String) (w : Workflow) (nid : Nat) (m c : IVal),
    ls ≠ [] →
    (addLoraLoop w ls nid m c).2 =
      (IVal.link (nid + ls.length - 1) 0, IVal.link (nid + ls.length - 1) 1) := by
  intro ls
  induction ls with
  | nil => intro w nid m c h; exact absurd rfl h
  | cons l ls ih =>
    intro w nid m c _
    by_cases hls : ls = []
    · subst hls
      simp [addLoraLoop]
    · simp only [addLoraLoop]
      rw [ih _ (nid + 1) (.link nid 0) (.link nid 1) hls]
      have hlen : nid + 1 + ls.length - 1 = nid + (l :: ls).length - 1 := by
        simp only [List.length_cons]; omega
      rw [hlen]

theorem loraChain_find_at : ∀ (ls : List String) (nid : Nat) (m c : IVal) (i : Nat)
    (h : i < ls.length),
    wfFind (loraChain ls nid m c) (nid + i) =
      some (loraNode (ls.get ⟨i, h⟩)
        (if i = 0 then m else .link (nid + i - 1) 0)
        (if i = 0 then c else .link (nid + i - 1) 1)) := by
  intro ls
  induction ls with
  | nil => intro nid m c i h; simp at h
  | cons l ls ih =>
    intro nid m c i h
    match i with
    | 0 => simp [loraChain, wfFind]
    | i + 1 =>
      have harr : nid + (i + 1) = (nid + 1) + i := by omega
      have hne2 : ¬ nid = nid + 1 + i := by omega
      simp only [loraChain, wfFind, harr, if_neg hne2]
      rw [ih (nid + 1) (.link nid 0) (.link nid 1) i (by simpa using h)]
      by_cases hi : i = 0
      · subst hi; simp
      · have e1 : nid + 1 + i - 1 = nid + (i + 1) - 1 := by omega
        simp [hi, e1]

theorem loraChain_find_out : ∀ (ls : List String) (nid : Nat) (m c : IVal) (j : Nat),
    (j < nid ∨ nid + ls.length ≤ j) → wfFind (loraChain ls nid m c) j = none := by
  intro ls
  induction ls with
  | nil => intro nid m c j _; rfl
  | cons l ls ih =>
    intro nid m c j h
    simp only [List.length_cons] at h
    have hne : ¬ nid = j := by omega
    simp only [loraChain, wfFind, if_neg hne]
    apply ih
    omega

theorem loraChain_edges : ∀ (ls : List String) (nid t : Nat), t < nid →
    ∀ e ∈ wfEdges (loraChain ls nid (.link t 0) (.link t 1)),
      (e.2 = t ∨ nid ≤ e.2) ∧ e.2 < e.1 ∧ nid ≤ e.1 ∧ e.1 < nid + ls.length := by
  intro ls
  induction ls with
  | nil => intro nid t ht e he; simp [loraChain, wfEdges] at he
  | cons l ls ih =>
    intro nid t ht e he
    simp only [loraChain, wfEdges, List.flatMap_cons] at he
    rcases List.mem_append.mp he with he | he
    · simp only [loraNode, nodeLinks, List.filterMap, List.map_cons, List.map_nil,
        List.mem_cons, List.not_mem_nil, or_false] at he
      have : e = (nid, t) := by
        simpa using he
      subst this
      refine ⟨Or.inl rfl, ht, Nat.le_refl _, ?_⟩
      simp only [List.length_cons]
      omega
    · have hrec := ih (nid + 1) nid (Nat.lt_succ_self nid) e (by simpa [wfEdges] using he)
      simp only [List.length_cons]
      rcases hrec with ⟨h1, h2, h3, h4⟩
      refine ⟨Or.inr ?_, h2, ?_, ?_⟩ <;> omega

theorem comfyuiBase_find_none (prompt : String) (p : SceneParameters)
    (config : GenerationConfig) (j : Nat) (hj : 10 ≤ j) :
    wfFind (comfyuiBaseWorkflow prompt p config) j = none := by
  apply wfFind_none_of_keys
  intro k hk
  simp [comfyuiBaseWorkflow] at hk
  omega

theorem comfyui_add_lora_decomp (w : Workflow) (ls : List String) (hls : ls ≠ [])
    (hw : ∀ k ∈ w.map Prod.fst, k < 20) :
    comfyui_add_lora_nodes w ls =
      setNodeInput (setNodeInput (setNodeInput
        (w ++ loraChain ls 20 (.link 4 0) (.link 4 1))
        1 "clip" (.link (19 + ls.length) 1))
        2 "clip" (.link (19 + ls.length) 1))
        3 "model" (.link (19 + ls.length) 0) := by
  simp only [comfyui_add_lora_nodes]
  rw [addLoraLoop_fst ls w 20 (.link 4 0) (.link 4 1) hw,
    addLoraLoop_snd ls w 20 (.link 4 0) (.link 4 1) hls]
  have h19 : 20 + ls.length - 1 = 19 + ls.length := by
    rcases ls with _ | ⟨a, t⟩
    · exact absurd rfl hls
    · simp only [List.length_cons]; omega
  rw [h19]

/-! # Claim C10 -/

/-- C10: splicing a non-empty list of `n` LoRA names into the ComfyUI
base workflow adds exactly the `LoraLoader` nodes 20 … 19+n, chained in
list order through their model and clip slots (the first from the
checkpoint outputs `["4",0]`/`["4",1]`); both CLIPTextEncode nodes'
`clip` inputs and the KSampler's `model` input are redirected to the
final LoRA node's outputs; every other input of nodes 1, 2 and 3
(including the sampler's positive, negative, seed, steps and cfg) is
unchanged; and every node outside ids 1, 2, 3 and 20 … 19+n is exactly
as in the base workflow. -/
theorem C10_lora_splice_frame (prompt : String) (p : SceneParameters)
    (config : GenerationConfig) (loras : List String) (hn : loras ≠ []) :
    (∀ i (h : i < loras.length),
      wfFind (comfyui_add_lora_nodes (comfyuiBaseWorkflow prompt p config) loras) (20 + i) =
        some (loraNode (loras.get ⟨i, h⟩)
          (if i = 0 then .link 4 0 else .link (19 + i) 0)
          (if i = 0 then .link 4 1 else .link (19 + i) 1))) ∧
    wfFind (comfyui_add_lora_nodes (comfyuiBaseWorkflow prompt p config) loras) 1 =
      some { class_type := "CLIPTextEncode",
             inputs := [("text", .str prompt), ("clip", .link (19 + loras.length) 1)],
             title := some "CLIP Text Encode (Prompt)" } ∧
    wfFind (comfyui_add_lora_nodes (comfyuiBaseWorkflow prompt p config) loras) 2 =
      some { class_type := "CLIPTextEncode",
             inputs := [("text", .str (comfyui_build_negative_prompt p config)),
                        ("clip", .link (19 + loras.length) 1)],
             title := some "CLIP Text Encode (Negative)" } ∧
    wfFind (comfyui_add_lora_nodes (comfyuiBaseWorkflow prompt p config) loras) 3 =
      some { class_type := "KSampler",
             inputs := [("seed", .num (comfyuiSeedVal config.seed : ℚ)),
                        ("steps", .num (config.steps : ℚ)),
                        ("cfg", .num config.cfg_scale),
                        ("sampler_name", .str "euler"),
                        ("scheduler", .str "normal"),
                        ("denoise", .num 1),
                        ("model", .link (19 + loras.length) 0),
                        ("positive", .link 1 0),
                        ("negative", .link 2 0),
                        ("latent_image", .link 5 0)],
             title := some "KSampler" } ∧
    (∀ j, j ∉ ([1, 2, 3] : List Nat) → ¬ (20 ≤ j ∧ j < 20 + loras.length) →
      wfFind (comfyui_add_lora_nodes (comfyuiBaseWorkflow prompt p config) loras) j =
        wfFind (comfyuiBaseWorkflow prompt p config) j) := by
  have hw : ∀ k ∈ (comfyuiBaseWorkflow prompt p config).map Prod.fst, k < 20 := by
    intro k hk
    simp [comfyuiBaseWorkflow] at hk
    omega
  rw [comfyui_add_lora_decomp (comfyuiBaseWorkflow prompt p config) loras hn hw]
  refine ⟨?_, ?_, ?_, ?_, ?_⟩
  · intro i h
    have h3 : ¬ (3 : Nat) = 20 + i := by omega
    have h2 : ¬ (2 : Nat) = 20 + i := by omega
    have h1 : ¬ (1 : Nat) = 20 + i := by omega
    rw [wfFind_setNodeInput, if_neg h3, wfFind_setNodeInput, if_neg h2,
      wfFind_setNodeInput, if_neg h1, wfFind_append,
      comfyuiBase_find_none prompt p config (20 + i) (by omega)]
    rw [loraChain_find_at loras 20 (.link 4 0) (.link 4 1) i h]
    by_cases hi : i = 0
    · subst hi; simp
    · have e1 : 20 + i - 1 = 19 + i := by omega
      simp [hi, e1]
  · have h3 : ¬ (3 : Nat) = 1 := by omega
    have h2 : ¬ (2 : Nat) = 1 := by omega
    rw [wfFind_setNodeInput, if_neg h3, wfFind_setNodeInput, if_neg h2,
      wfFind_setNodeInput, if_pos rfl, wfFind_append]
    rfl
  · have h3 : ¬ (3 : Nat) = 2 := by omega
    rw [wfFind_setNodeInput, if_neg h3, wfFind_setNodeInput, if_pos rfl,
      wfFind_setNodeInput]
    simp only [show ¬ (1 : Nat) = 2 by omega, if_neg, if_false]
    rw [wfFind_append]
    rfl
  · rw [wfFind_setNodeInput, if_pos rfl, wfFind_setNodeInput]
    simp only [show ¬ (2 : Nat) = 3 by omega, if_neg, if_false]
    rw [wfFind_setNodeInput]
    simp only [show ¬ (1 : Nat) = 3 by omega, if_neg, if_false]
    rw [wfFind_append]
    rfl
  · intro j hj hrange
    have h3 : ¬ (3 : Nat) = j := by simp at hj; omega
    have h2 : ¬ (2 : Nat) = j := by simp at hj; omega
    have h1 : ¬ (1 : Nat) = j := by simp at hj; omega
    rw [wfFind_setNodeInput, if_neg h3, wfFind_setNodeInput, if_neg h2,
      wfFind_setNodeInput, if_neg h1, wfFind_append]
    rcases hwj : wfFind (comfyuiBaseWorkflow prompt p config) j with _ | nd
    · rw [loraChain_find_out loras 20 (.link 4 0) (.link 4 1) j (by omega)]
    · rfl

/-- C10 witness: the frame theorem applied to a concrete two-LoRA
splice, sampled at the second loader node, the rewired sampler node,
and the untouched save node. -/
theorem C10_lora_splice_witness :
    (["punchStyle.safetensors", "grit.safetensors"] : List String) ≠ [] ∧
    wfFind (comfyui_add_lora_nodes (comfyuiBaseWorkflow "duel" sceneFix cfgFix)
        ["punchStyle.safetensors", "grit.safetensors"]) 21 =
      some (loraNode "grit.safetensors" (.link 20 0) (.link 20 1)) ∧
    wfFind (comfyui_add_lora_nodes (comfyuiBaseWorkflow "duel" sceneFix cfgFix)
        ["punchStyle.safetensors", "grit.safetensors"]) 9 =
      wfFind (comfyuiBaseWorkflow "duel" sceneFix cfgFix) 9 := by
  have h := C10_lora_splice_frame "duel" sceneFix cfgFix
    ["punchStyle.safetensors", "grit.safetensors"] (by decide)
  refine ⟨by decide, ?_, ?_⟩
  · have := h.1 1 (by decide)
    simpa using this
  · exact h.2.2.2.2 9 (by decide) (by decide)

/-! # ControlNet block lemmas (for C6) -/

theorem cnBlocksList_keys : ∀ (cns : List CnParam) (i : Nat) (k : Nat),
    k ∈ (cnBlocksList cns i).map Prod.fst →
    10 + i * 4 ≤ k ∧ k < 10 + (i + cns.length) * 4 := by
  intro cns
  induction cns with
  | nil => intro i k h; simp [cnBlocksList] at h
  | cons cn rest ih =>
    intro i k h
    simp only [cnBlocksList, List.map_append, List.mem_append] at h
    rcases h with h | h
    · simp [cnBlock] at h
      simp only [List.length_cons]
      omega
    · have := ih (i + 1) k h
      simp only [List.length_cons]
      omega

theorem wfInsert4 (w : Workflow) (k : Nat) (a b c d : Node)
    (h : ∀ kk ∈ w.map Prod.fst, kk < k) :
    wfInsert (wfInsert (wfInsert (wfInsert w k a) (k + 1) b) (k + 2) c) (k + 3) d =
      w ++ [(k, a), (k + 1, b), (k + 2, c), (k + 3, d)] := by
  rw [wfInsert_fresh w k a (fun kk hk => Nat.ne_of_lt (h kk hk))]
  rw [wfInsert_fresh (w ++ [(k, a)]) (k + 1) b (by
    intro kk hk
    simp only [List.map_append, List.mem_append, List.map_cons, List.map_nil,
      List.mem_cons, List.not_mem_nil, or_false] at hk
    rcases hk with hk | hk
    · have := h kk hk; omega
    · omega)]
  rw [wfInsert_fresh ((w ++ [(k, a)]) ++ [(k + 1, b)]) (k + 2) c (by
    intro kk hk
    simp only [List.map_append, List.mem_append, List.map_cons, List.map_nil,
      List.mem_cons, List.not_mem_nil, or_false] at hk
    rcases hk with (hk | hk) | hk
    · have := h kk hk; omega
    · omega
    · omega)]
  rw [wfInsert_fresh (((w ++ [(k, a)]) ++ [(k + 1, b)]) ++ [(k + 2, c)]) (k + 3) d (by
    intro kk hk
    simp only [List.map_append, List.mem_append, List.map_cons, List.map_nil,
      List.mem_cons, List.not_mem_nil, or_false] at hk
    rcases hk with ((hk | hk) | hk) | hk
    · have := h kk hk; omega
    · omega
    · omega
    · omega)]
  simp [List.append_assoc]

theorem addCnBlocks_decomp : ∀ (cns : List CnParam) (w : Workflow) (i : Nat),
    (∀ k ∈ w.map Prod.fst, k < 10 + i * 4) →
    addCnBlocks w cns i = w ++ cnBlocksList cns i := by
  intro cns
  induction cns with
  | nil => intro w i _; simp [addCnBlocks, cnBlocksList]
  | cons cn rest ih =>
    intro w i h
    simp only [addCnBlocks, cnBlocksList]
    rw [wfInsert4 w (10 + i * 4) _ _ _ _ h]
    rw [ih _ (i + 1) (by
      intro k hk
      simp only [List.map_append, List.mem_append, List.map_cons, List.map_nil,
        List.mem_cons, List.not_mem_nil, or_false] at hk
      rcases hk with hk | hk | hk | hk | hk
      · have := h k hk; omega
      all_goals omega)]
    simp [cnBlock, cnApplyNode, List.append_assoc]

theorem cnBlock_find_apply (i : Nat) (cn : CnParam) :
    wfFind (cnBlock i cn) (10 + i * 4 + 3) = some (cnApplyNode i cn) := by
  simp only [cnBlock, wfFind]
  rw [if_neg (by omega), if_neg (by omega), if_neg (by omega)]
  simp

theorem cnBlocksList_find_apply : ∀ (cns : List CnParam) (i j : Nat) (h : j < cns.length),
    wfFind (cnBlocksList cns i) (10 + (i + j) * 4 + 3) =
      some (cnApplyNode (i + j) (cns.get ⟨j, h⟩)) := by
  intro cns
  induction cns with
  | nil => intro i j h; simp at h
  | cons cn rest ih =>
    intro i j h
    match j with
    | 0 =>
      simp only [cnBlocksList]
      rw [wfFind_append]
      have hb : wfFind (cnBlock i cn) (10 + (i + 0) * 4 + 3) = some (cnApplyNode i cn) := by
        rw [Nat.add_zero]
        exact cnBlock_find_apply i cn
      rw [hb]
      simp
    | j + 1 =>
      simp only [cnBlocksList]
      rw [wfFind_append]
      have hout : wfFind (cnBlock i cn) (10 + (i + (j + 1)) * 4 + 3) = none := by
        apply wfFind_none_of_keys
        intro k hk
        simp [cnBlock] at hk
        omega
      rw [hout]
      have harr : 10 + (i + (j + 1)) * 4 + 3 = 10 + ((i + 1) + j) * 4 + 3 := by omega
      rw [harr, ih (i + 1) j (by simpa using h)]
      have harr2 : i + 1 + j = i + (j + 1) := by omega
      simp [harr2]

theorem imageBase_find_none (params : TemplateParams) (j : Nat) (hj : 10 ≤ j) :
    wfFind (create_image_workflow params) j = none := by
  apply wfFind_none_of_keys
  intro k hk
  simp [create_image_workflow] at hk
  omega

theorem imageBase_keys_lt (params : TemplateParams) :
    ∀ k ∈ (create_image_workflow params).map Prod.fst, k < 10 + 0 * 4 := by
  intro k hk
  simp [create_image_workflow] at hk
  omega

theorem multiCn_sampler_positive (params : TemplateParams) :
    nodeInput (create_multi_controlnet_workflow params) 3 "positive" =
      some (.link (params.controlnets.length * 4 + 9) 0) := by
  simp only [create_multi_controlnet_workflow, nodeInput]
  rw [addCnBlocks_decomp params.controlnets (create_image_workflow params) 0
    (imageBase_keys_lt params)]
  rw [wfFind_setNodeInput, if_pos rfl, wfFind_append]
  rfl

theorem multiCn_find_apply (params : TemplateParams) (j : Nat)
    (h : j < params.controlnets.length) :
    wfFind (create_multi_controlnet_workflow params) (j * 4 + 13) =
      some (cnApplyNode j (params.controlnets.get ⟨j, h⟩)) := by
  simp only [create_multi_controlnet_workflow]
  rw [addCnBlocks_decomp params.controlnets (create_image_workflow params) 0
    (imageBase_keys_lt params)]
  rw [wfFind_setNodeInput, if_neg (by omega), wfFind_append]
  rw [imageBase_find_none params (j * 4 + 13) (by omega)]
  have harr : j * 4 + 13 = 10 + (0 + j) * 4 + 3 := by omega
  rw [harr, cnBlocksList_find_apply params.controlnets 0 j h]
  simp

/-! # Claim C6 -/

/-- C6: with exactly one openpose ControlNet attachment of strength
0.8, the sampler's `positive` input is the Link `["13", 0]` to the
ControlNetApply node (not `["1", 0]`, the positive text-encode node);
the RunPod single-ControlNet splice likewise rewires `positive` to its
apply node 14; and for every list of at least two ControlNet
attachments the apply nodes chain sequentially: the first apply node's
`conditioning` links to text-encode node 1, apply node `j` (for
`1 ≤ j`) takes its `conditioning` from the previous apply node
`4(j-1)+13 = 4j+9`, and the sampler's `positive` links to the last
apply node's output. -/
theorem C6_controlnet_chaining :
    (∀ (params : TemplateParams) (img : String),
      params.controlnets = [{ cn_type := "openpose", image := img, strength := some 0.8 }] →
      nodeInput (create_multi_controlnet_workflow params) 3 "positive" =
        some (.link 13 0) ∧
      (wfFind (create_multi_controlnet_workflow params) 13).map Node.class_type =
        some "ControlNetApply" ∧
      (IVal.link 13 0) ≠ (IVal.link 1 0)) ∧
    (∀ (prompt : String) (p : SceneParameters) (config : GenerationConfig)
       (model_name : String) (now : Nat) (s : ℚ),
      config.controlnet = some { enabled := true, cn_type := "openpose", strength := s } →
      nodeInput (runpod_create_workflow prompt p config model_name now) 3 "positive" =
        some (.link 14 0) ∧
      (wfFind (runpod_create_workflow prompt p config model_name now) 14).map Node.class_type =
        some "ControlNetApply") ∧
    (∀ params : TemplateParams, 2 ≤ params.controlnets.length →
      nodeInput (create_multi_controlnet_workflow params) 13 "conditioning" =
        some (.link 1 0) ∧
      (∀ j, 1 ≤ j → j < params.controlnets.length →
        nodeInput (create_multi_controlnet_workflow params) (j * 4 + 13) "conditioning" =
          some (.link (j * 4 + 9) 0)) ∧
      (∀ j, j < params.controlnets.length →
        (wfFind (create_multi_controlnet_workflow params) (j * 4 + 13)).map Node.class_type =
          some "ControlNetApply") ∧
      nodeInput (create_multi_controlnet_workflow params) 3 "positive" =
        some (.link ((params.controlnets.length - 1) * 4 + 13) 0)) := by
  refine ⟨?_, ?_, ?_⟩
  · intro params img hcn
    have h1 : 0 < params.controlnets.length := by rw [hcn]; simp
    have hfind := multiCn_find_apply params 0 h1
    have hpos := multiCn_sampler_positive params
    rw [hcn] at hpos
    refine ⟨by simpa using hpos, ?_, by simp⟩
    rw [show (0 : Nat) * 4 + 13 = 13 by omega] at hfind
    rw [hfind]
    rfl
  · intro prompt p config model_name now s hc
    unfold runpod_create_workflow
    rw [hc]
    by_cases hw : strContains (strLower model_name) "wan" <;>
      simp [get_wan_optimizations, hw, runpod_add_controlnet_nodes, nodeInput,
        wfFind_insert, wfFind_setNodeInput, wfFind, setKey, List.lookup]
  · intro params hlen
    have h0 : 0 < params.controlnets.length := by omega
    refine ⟨?_, ?_, ?_, ?_⟩
    · have hfind := multiCn_find_apply params 0 h0
      rw [show (0 : Nat) * 4 + 13 = 13 by omega] at hfind
      simp only [nodeInput, hfind]
      rfl
    · intro j hj1 hjlen
      have hfind := multiCn_find_apply params j hjlen
      simp only [nodeInput, hfind]
      have hne : ¬ j = 0 := by omega
      have harith : 10 + j * 4 - 1 = j * 4 + 9 := by omega
      simp [cnApplyNode, List.lookup, hne, harith]
    · intro j hjlen
      rw [multiCn_find_apply params j hjlen]
      rfl
    · have hpos := multiCn_sampler_positive params
      have harith : params.controlnets.length * 4 + 9 =
          (params.controlnets.length - 1) * 4 + 13 := by omega
      rw [harith] at hpos
      exact hpos

/-- C6 witness: the chaining theorem applied to the concrete
single-openpose fixture and the concrete two-ControlNet fixture. -/
theorem C6_controlnet_chaining_witness :
    nodeInput (create_multi_controlnet_workflow tplSingleCnFix) 3 "positive" =
      some (.link 13 0) ∧
    (2 ≤ tplTwoCnFix.controlnets.length ∧
      nodeInput (create_multi_controlnet_workflow tplTwoCnFix) 17 "conditioning" =
        some (.link 13 0)) := by
  refine ⟨(C6_controlnet_chaining.1 tplSingleCnFix "pose.png" rfl).1, by decide, ?_⟩
  have h := (C6_controlnet_chaining.2.2 tplTwoCnFix (by decide)).2.1 1 (by decide) (by decide)
  simpa using h

/-! # Claim C4 -/

theorem wfEdges_append (w₁ w₂ : Workflow) :
    wfEdges (w₁ ++ w₂) = wfEdges w₁ ++ wfEdges w₂ := by
  simp [wfEdges]

theorem acyclic_of_edgesDecrease (w : Workflow) (μ : Nat → Nat)
    (h : edgesDecrease w μ = true) : Acyclic w := by
  apply acyclic_of_measure μ
  intro e he
  have := (List.all_eq_true.mp h) e he
  simpa using this

theorem comfyui_lora_decomposed (prompt : String) (p : SceneParameters)
    (config : GenerationConfig) (ls : List String) (hls : ls ≠ []) :
    comfyui_add_lora_nodes (comfyuiBaseWorkflow prompt p config) ls =
      comfyuiBaseRewired prompt p config ls.length ++
        loraChain ls 20 (.link 4 0) (.link 4 1) := by
  have hw : ∀ k ∈ (comfyuiBaseWorkflow prompt p config).map Prod.fst, k < 20 := by
    intro k hk; simp [comfyuiBaseWorkflow] at hk; omega
  have hch1 : ∀ k ∈ (loraChain ls 20 (.link 4 0) (.link 4 1)).map Prod.fst, k ≠ 1 := by
    intro k hk; have := loraChain_keys ls 20 _ _ k hk; omega
  have hch2 : ∀ k ∈ (loraChain ls 20 (.link 4 0) (.link 4 1)).map Prod.fst, k ≠ 2 := by
    intro k hk; have := loraChain_keys ls 20 _ _ k hk; omega
  have hch3 : ∀ k ∈ (loraChain ls 20 (.link 4 0) (.link 4 1)).map Prod.fst, k ≠ 3 := by
    intro k hk; have := loraChain_keys ls 20 _ _ k hk; omega
  rw [comfyui_add_lora_decomp _ ls hls hw]
  rw [setNodeInput_append,
    setNodeInput_not_mem (loraChain ls 20 (.link 4 0) (.link 4 1)) 1 "clip"
      (.link (19 + ls.length) 1) hch1]
  rw [setNodeInput_append,
    setNodeInput_not_mem (loraChain ls 20 (.link 4 0) (.link 4 1)) 2 "clip"
      (.link (19 + ls.length) 1) hch2]
  rw [setNodeInput_append,
    setNodeInput_not_mem (loraChain ls 20 (.link 4 0) (.link 4 1)) 3 "model"
      (.link (19 + ls.length) 0) hch3]
  rfl

theorem comfyuiBaseRewired_edges (prompt : String) (p : SceneParameters)
    (config : GenerationConfig) (n : Nat) :
    wfEdges (comfyuiBaseRewired prompt p config n) =
      [(1, 19 + n), (2, 19 + n), (3, 19 + n), (3, 1), (3, 2), (3, 5),
       (8, 3), (8, 4), (9, 8)] := rfl

theorem comfyuiBaseRewired_keys (prompt : String) (p : SceneParameters)
    (config : GenerationConfig) (n : Nat) :
    (comfyuiBaseRewired prompt p config n).map Prod.fst = [1, 2, 3, 4, 5, 8, 9] := rfl

theorem comfyuiLoraMeasure_at_one (n : Nat) : comfyuiLoraMeasure n 1 = n + 1 := by
  simp [comfyuiLoraMeasure]

theorem comfyuiLoraMeasure_at_two (n : Nat) : comfyuiLoraMeasure n 2 = n + 1 := by
  simp [comfyuiLoraMeasure]

theorem comfyuiLoraMeasure_at_three (n : Nat) : comfyuiLoraMeasure n 3 = n + 2 := by
  simp [comfyuiLoraMeasure]

theorem comfyuiLoraMeasure_at_four (n : Nat) : comfyuiLoraMeasure n 4 = 0 := by
  simp [comfyuiLoraMeasure]

theorem comfyuiLoraMeasure_at_five (n : Nat) : comfyuiLoraMeasure n 5 = 0 := by
  simp [comfyuiLoraMeasure]

theorem comfyuiLoraMeasure_at_eight (n : Nat) : comfyuiLoraMeasure n 8 = n + 3 := by
  simp [comfyuiLoraMeasure]

theorem comfyuiLoraMeasure_at_nine (n : Nat) : comfyuiLoraMeasure n 9 = n + 4 := by
  simp [comfyuiLoraMeasure]

theorem comfyuiLoraMeasure_chain (n : Nat) (id : Nat) (h20 : 20 ≤ id) :
    comfyuiLoraMeasure n id = id - 19 := by
  simp only [comfyuiLoraMeasure]
  rw [if_neg (by omega), if_pos h20]

theorem comfyui_lora_valid (prompt : String) (p : SceneParameters)
    (config : GenerationConfig) (ls : List String) (hls : ls ≠ []) :
    StructValid (comfyui_add_lora_nodes (comfyuiBaseWorkflow prompt p config) ls) := by
  have hn : 1 ≤ ls.length := List.length_pos.mpr hls
  rw [comfyui_lora_decomposed prompt p config ls hls]
  have hnone : wfFind (comfyuiBaseRewired prompt p config ls.length) (19 + ls.length) = none := by
    apply wfFind_none_of_keys
    intro k hk
    rw [comfyuiBaseRewired_keys] at hk
    simp at hk
    omega
  have hlast := loraChain_find_at ls 20 (.link 4 0) (.link 4 1) (ls.length - 1)
    (Nat.sub_lt (by omega) Nat.one_pos)
  rw [show 20 + (ls.length - 1) = 19 + ls.length by omega] at hlast
  constructor
  · apply acyclic_of_measure (comfyuiLoraMeasure ls.length)
    intro e he
    rw [wfEdges_append] at he
    rcases List.mem_append.mp he with he | he
    · rw [comfyuiBaseRewired_edges] at he
      simp only [List.mem_cons, List.not_mem_nil, or_false] at he
      rcases he with rfl | rfl | rfl | rfl | rfl | rfl | rfl | rfl | rfl
      · dsimp only
        rw [comfyuiLoraMeasure_chain _ _ (by omega), comfyuiLoraMeasure_at_one]; omega
      · dsimp only
        rw [comfyuiLoraMeasure_chain _ _ (by omega), comfyuiLoraMeasure_at_two]; omega
      · dsimp only
        rw [comfyuiLoraMeasure_chain _ _ (by omega), comfyuiLoraMeasure_at_three]; omega
      · dsimp only
        rw [comfyuiLoraMeasure_at_one, comfyuiLoraMeasure_at_three]; omega
      · dsimp only
        rw [comfyuiLoraMeasure_at_two, comfyuiLoraMeasure_at_three]; omega
      · dsimp only
        rw [comfyuiLoraMeasure_at_five, comfyuiLoraMeasure_at_three]; omega
      · dsimp only
        rw [comfyuiLoraMeasure_at_three, comfyuiLoraMeasure_at_eight]; omega
      · dsimp only
        rw [comfyuiLoraMeasure_at_four, comfyuiLoraMeasure_at_eight]; omega
      · dsimp only
        rw [comfyuiLoraMeasure_at_eight, comfyuiLoraMeasure_at_nine]; omega
    · have hb := loraChain_edges ls 20 4 (by omega) e he
      rcases hb with ⟨h1, h2, h3, h4⟩
      rw [comfyuiLoraMeasure_chain ls.length e.1 (by omega)]
      rcases h1 with h1 | h1
      · rw [h1, comfyuiLoraMeasure_at_four]; omega
      · rw [comfyuiLoraMeasure_chain ls.length e.2 (by omega)]; omega
  · rw [linksClosed_iff]
    intro e he
    rw [wfEdges_append] at he
    rcases List.mem_append.mp he with he | he
    · rw [comfyuiBaseRewired_edges] at he
      simp only [List.mem_cons, List.not_mem_nil, or_false] at he
      rcases he with rfl | rfl | rfl | rfl | rfl | rfl | rfl | rfl | rfl
      · dsimp only; rw [wfFind_append, hnone, hlast]; rfl
      · dsimp only; rw [wfFind_append, hnone, hlast]; rfl
      · dsimp only; rw [wfFind_append, hnone, hlast]; rfl
      · rfl
      · rfl
      · rfl
      · rfl
      · rfl
      · rfl
    · have hb := loraChain_edges ls 20 4 (by omega) e he
      rcases hb with ⟨h1, h2, h3, h4⟩
      rcases h1 with h1 | h1
      · rw [h1]; rfl
      · have hi : e.2 - 20 < ls.length := by omega
        have hfind := loraChain_find_at ls 20 (.link 4 0) (.link 4 1) (e.2 - 20) hi
        rw [show 20 + (e.2 - 20) = e.2 by omega] at hfind
        have hnone2 : wfFind (comfyuiBaseRewired prompt p config ls.length) e.2 = none := by
          apply wfFind_none_of_keys
          intro k hk
          rw [comfyuiBaseRewired_keys] at hk
          simp at hk
          omega
        rw [wfFind_append, hnone2, hfind]
        rfl

theorem comfyuiBase_valid (prompt : String) (p : SceneParameters)
    (config : GenerationConfig) :
    StructValid (comfyuiBaseWorkflow prompt p config) :=
  ⟨acyclic_of_edgesDecrease _ (comfyuiLoraMeasure 0) rfl, rfl⟩

set_option maxHeartbeats 2000000 in
/-- C4 amended: structural validity (acyclicity and closedness of all
links) holds exactly on the splices the code actually wires up:
every ComfyUI graph with no enabled ControlNet attachment — including
arbitrary non-empty LoRA chains — is acyclic with all link targets
present, and likewise every RunPod graph whose ControlNet attachment
is absent, disabled, or of type openpose or canny.  An enabled
ControlNet attachment in the ComfyUI client always produces a dangling
link (the openpose preprocessor reads image-load node 12, which is
never created; other types omit preprocessor node 11 that the apply
node reads), and a RunPod ControlNet of any type outside openpose and
canny leaves apply node 14 reading the missing preprocessor node
13. -/
theorem C4_structural_validity_amended :
    (∀ (prompt : String) (p : SceneParameters) (config : GenerationConfig),
      comfyuiCnOk config.controlnet →
      StructValid (comfyui_create_workflow prompt p config)) ∧
    (∀ (prompt : String) (p : SceneParameters) (config : GenerationConfig)
       (model_name : String) (now : Nat),
      runpodCnOk config.controlnet →
      StructValid (runpod_create_workflow prompt p config model_name now)) := by
  constructor
  · intro prompt p config hok
    unfold comfyui_create_workflow
    rcases hc : config.controlnet with _ | cn
    · dsimp only
      by_cases hl : config.lora_models = []
      · rw [if_pos hl]
        exact comfyuiBase_valid prompt p config
      · rw [if_neg hl]
        exact comfyui_lora_valid prompt p config _ hl
    · rw [hc] at hok
      have henb : cn.enabled = false := hok
      dsimp only
      rw [henb]
      simp only [Bool.false_eq_true, if_false]
      by_cases hl : config.lora_models = []
      · rw [if_pos hl]
        exact comfyuiBase_valid prompt p config
      · rw [if_neg hl]
        exact comfyui_lora_valid prompt p config _ hl
  · intro prompt p config model_name now hok
    unfold runpod_create_workflow
    rcases hc : config.controlnet with _ | cn
    · dsimp only
      by_cases hw : strContains (strLower model_name) "wan" <;>
        simp [get_wan_optimizations, hw] <;>
        exact ⟨acyclic_of_edgesDecrease _ runpodMeasure rfl, rfl⟩
    · rw [hc] at hok
      dsimp only
      rcases hok with henb | htype | htype
      · rw [henb]
        simp only [Bool.false_eq_true, if_false]
        by_cases hw : strContains (strLower model_name) "wan" <;>
          simp [get_wan_optimizations, hw] <;>
          exact ⟨acyclic_of_edgesDecrease _ runpodMeasure rfl, rfl⟩
      · by_cases he : cn.enabled <;>
        by_cases hw : strContains (strLower model_name) "wan" <;>
          simp [get_wan_optimizations, hw, he, htype, runpod_add_controlnet_nodes] <;>
          exact ⟨acyclic_of_edgesDecrease _ runpodMeasure rfl, rfl⟩
      · by_cases he : cn.enabled <;>
        by_cases hw : strContains (strLower model_name) "wan" <;>
          simp [get_wan_optimizations, hw, he, htype, runpod_add_controlnet_nodes] <;>
          exact ⟨acyclic_of_edgesDecrease _ runpodMeasure rfl, rfl⟩

/-- C4 counterexample: the claim states every built graph, including
graphs with ControlNet attachments of any supported type, has only
links to nodes present in the graph; but the ComfyUI builder with an
enabled openpose ControlNet emits preprocessor node 11 reading
image-load node 12, which is never added — the graph has a dangling
link and is not structurally valid. -/
theorem C4_cex_comfyui_controlnet_dangling_link :
    linksClosed (comfyui_create_workflow "hero" sceneFix cfgCnFix) = false ∧
    nodeInput (comfyui_create_workflow "hero" sceneFix cfgCnFix) 11 "image" =
      some (.link 12 0) ∧
    wfFind (comfyui_create_workflow "hero" sceneFix cfgCnFix) 12 = none ∧
    ¬ StructValid (comfyui_create_workflow "hero" sceneFix cfgCnFix) := by
  refine ⟨rfl, rfl, rfl, fun h => ?_⟩
  have h2 := h.2
  rw [show linksClosed (comfyui_create_workflow "hero" sceneFix cfgCnFix) = false
    from rfl] at h2
  exact Bool.false_ne_true h2

/-- C4 witness: the amended theorem applied to a ComfyUI request with
two LoRA attachments and no ControlNet, and to a RunPod request with
an enabled canny ControlNet. -/
theorem C4_structural_validity_witness :
    StructValid (comfyui_create_workflow "duel" sceneFix
      { cfgFix with lora_models := ["punchStyle.safetensors", "grit.safetensors"] }) ∧
    StructValid (runpod_create_workflow "duel" sceneFix
      { cfgFix with controlnet := some { cn_type := "canny", strength := 0.5 } }
      "wan_big_model.safetensors" 7) :=
  ⟨C4_structural_validity_amended.1 "duel" sceneFix
      { cfgFix with lora_models := ["punchStyle.safetensors", "grit.safetensors"] } trivial,
   C4_structural_validity_amended.2 "duel" sceneFix
      { cfgFix with controlnet := some { cn_type := "canny", strength := 0.5 } }
      "wan_big_model.safetensors" 7 (Or.inr (Or.inr rfl))⟩

end Cina
